import Mathlib

/-!
Verification development for the session-based browser automation and
publishing engine of the abk_BE repository (`src/media/media.module.ts`,
`PlaywrightAuthService`, and the remote interactive session broker
`BrowserlessService`).

The TypeScript source drives a real browser; here it is shallowly embedded:
every branch-relevant observation the code makes of the outside world
(URLs after navigation, selector hits, thrown errors of awaited calls) is a
field of an explicit environment record, and each publish operation becomes a
pure function from that environment and its inputs to a result together with
a trace of the resource and injection events it performed.  Strings are
modelled as lists of characters so that the string manipulation of the source
(trim, split, indexOf, includes, regex capture) can be reproduced exactly.
-/

set_option maxHeartbeats 1000000
set_option linter.unusedVariables false

namespace AbkBE

/-- Strings, modelled as lists of characters (JS strings are sequences of
UTF-16 units; none of the claims depends on surrogate behaviour). -/
abbrev Str := List Char

/-- Conversion from Lean string literals. -/
def str (s : String) : Str := s.data

/-- Whitespace as trimmed by `String.prototype.trim` (restricted to the four
ASCII whitespace characters; none of the strings produced by the engine
contains the more exotic JS whitespace code points). -/
def wsChar (c : Char) : Bool := c == ' ' || c == '\t' || c == '\n' || c == '\r'

/-- `s.trim()` of JS: drop whitespace from both ends. -/
def trimStr (s : Str) : Str := ((s.dropWhile wsChar).reverse.dropWhile wsChar).reverse

/-- `s.split(sep)` of JS for a single-character separator: `"".split(';')`
is `[""]`, and `n` separators yield `n+1` (possibly empty) pieces. -/
def splitOnChar (sep : Char) : Str → List Str
  | [] => [[]]
  | c :: r =>
    if c == sep then [] :: splitOnChar sep r
    else
      match splitOnChar sep r with
      | [] => [[c]]
      | h :: t => (c :: h) :: t

/-- Does `pat` occur at the very beginning of `s`? (JS `startsWith`). -/
def beginsWith : Str → Str → Bool
  | _, [] => true
  | [], _ :: _ => false
  | a :: as, b :: bs => a == b && beginsWith as bs

/-- `s.includes(pat)` of JS. -/
def hasSub : Str → Str → Bool
  | [], pat => pat.isEmpty
  | c :: r, pat => beginsWith (c :: r) pat || hasSub r pat

/-- First match of the regex `key(G+)` where `G` is a character class:
scan for the leftmost position where the literal `key` is followed by at
least one character satisfying `good`; the capture is the maximal run of
`good` characters there.  This is the shape of `/blogId=([^&]+)/`,
`/blog\.naver\.com\/([^/?]+)/` and `/logNo=(\d+)/` in the source. -/
def matchKeyRun (key : Str) (good : Char → Bool) : Str → Option Str
  | [] => none
  | c :: r =>
    if beginsWith (c :: r) key then
      let rest := (c :: r).drop key.length
      let run := rest.takeWhile good
      if run.isEmpty then matchKeyRun key good r else some run
    else matchKeyRun key good r

/-- First capture of `/https?:\/\/([^.]+)\.tistory\.com/` (the blog-name
extraction used throughout `publishToTistory`): leftmost position with the
literal scheme, then a maximal nonempty dot-free run that must be followed
by the literal `.tistory.com`. -/
def tistoryHost : Str → Option Str
  | [] => none
  | c :: r =>
    let s := c :: r
    let afterScheme : Option Str :=
      if beginsWith s (str "https://") then some (s.drop 8)
      else if beginsWith s (str "http://") then some (s.drop 7)
      else none
    match afterScheme with
    | some rest =>
      let run := rest.takeWhile (fun a => a != '.')
      if !run.isEmpty && beginsWith (rest.drop run.length) (str ".tistory.com") then some run
      else tistoryHost r
    | none => tistoryHost r

/-- First capture of `/\/(\d+)(?:\?|$)/` (Tistory post-id extraction):
a `/` followed by a maximal nonempty digit run that ends the string or is
followed by `?`. -/
def tistoryPostId : Str → Option Str
  | [] => none
  | c :: r =>
    if c == '/' then
      let run := r.takeWhile Char.isDigit
      if !run.isEmpty && ((r.drop run.length).isEmpty || (r.drop run.length).head? == some '?')
      then some run
      else tistoryPostId r
    else tistoryPostId r

/-- A browser cookie as injected via Playwright `addCookies`:
the `{name, value, domain, path}` record shape of the SessionArtifact. -/
structure Cookie where
  name : Str
  value : Str
  domain : Str
  path : Str
deriving Repr, DecidableEq

/-- Index of the first `=` (JS `indexOf('=')`; only ever used on strings the
source has already filtered to contain `=`, so the absent case is free to
return the length). -/
def findEq : Str → Nat
  | [] => 0
  | c :: r => if c == '=' then 0 else findEq r + 1

/-- One `name=value` pair of the flat cookie-string shape, as built by
`parseCookieString`: split at the first `=`, trim both sides, attach the
injection domain and path `/`. -/
def parsePair (domain p : Str) : Cookie :=
  let i := findEq p
  { name := trimStr (p.take i), value := trimStr (p.drop (i + 1)),
    domain := domain, path := str "/" }

/-- The `key=value; key=value` branch of `parseCookieString`. -/
def flatParse (domain t : Str) : List Cookie :=
  (((splitOnChar ';' t).map trimStr).filter (fun p => p.contains '=')).map (parsePair domain)

/-- The pieces of a canonically serialized cookie array, obtained by
splitting on `"`.  `parseQuoted` consumes sixteen pieces per cookie:
`name : N , value : V , domain : D , path : P` and the separator
(`},{` between objects, `}]` at the end). -/
def parseQuoted : List Str → Option (List Cookie)
  | k1 :: c1 :: n :: s1 :: k2 :: c2 :: v :: s2 :: k3 :: c3 :: d :: s3 :: k4 :: c4 :: p :: sep :: rest =>
    if k1 == str "name" && c1 == str ":" && s1 == str "," &&
       k2 == str "value" && c2 == str ":" && s2 == str "," &&
       k3 == str "domain" && c3 == str ":" && s3 == str "," &&
       k4 == str "path" && c4 == str ":"
    then
      match rest with
      | [] => if sep == str "\x7d]" then some [⟨n, v, d, p⟩] else none
      | _ :: _ =>
        if sep == str "\x7d,\x7b" then (parseQuoted rest).map (fun cs => ⟨n, v, d, p⟩ :: cs)
        else none
    else none
  | _ => none

/-- Modelled from the host primitive `JSON.parse` as used by
`parseCookieString`: it is restricted to the canonical output grammar of
`JSON.stringify` on arrays of `{name, value, domain, path}` records without
escape sequences (the only JSON this engine ever feeds back to itself).
Inputs outside that grammar are reported as a parse failure, which the
caller turns into the flat-string fallback exactly like the `catch` around
`JSON.parse` in the source. -/
def jsonParseCookies (s : Str) : Option (List Cookie) :=
  match splitOnChar '"' s with
  | [p] => if p == str "[]" then some [] else none
  | p :: rest => if p == str "[\x7b" then parseQuoted rest else none
  | [] => none

/-- `parseCookieString(cookies, domain)` of `PlaywrightAuthService`:
trim; if the string starts with `[` try the JSON-array shape, falling back
to the flat `key=value; key=value` shape on parse failure; otherwise parse
the flat shape directly. -/
def parseCookieString (cookies domain : Str) : List Cookie :=
  let trimmed := trimStr cookies
  if trimmed.head? == some '[' then
    match jsonParseCookies trimmed with
    | some arr => arr
    | none => flatParse domain trimmed
  else flatParse domain trimmed

/-- An out-chunk followed by a quote: building block of the serialized
JSON shape. -/
def seg (x r : Str) : Str := x ++ '"' :: r

/-- Everything of the canonical serialization after the opening `[{"`:
per cookie the quoted key/value segments, then either the closing `}]` or
the `},{` separator and the next cookie. -/
def encRest : Cookie → List Cookie → Str
  | c, cs =>
    seg (str "name") <| seg (str ":") <| seg c.name <| seg (str ",") <|
    seg (str "value") <| seg (str ":") <| seg c.value <| seg (str ",") <|
    seg (str "domain") <| seg (str ":") <| seg c.domain <| seg (str ",") <|
    seg (str "path") <| seg (str ":") <| seg c.path <|
    (match cs with
     | [] => str "\x7d]"
     | c' :: cs' => seg (str "\x7d,\x7b") (encRest c' cs'))

/-- Modelled from the host primitive `JSON.stringify` on a cookie array
(the shape the engine writes with `JSON.stringify(await context.cookies())`):
`[{"name":"N","value":"V","domain":"D","path":"P"},...]`, without escape
sequences. -/
def encodeCookies : List Cookie → Str
  | [] => str "[]"
  | c :: cs => seg (str "[\x7b") (encRest c cs)

/-- One `name=value` element of the flat serialization. -/
def pairStr (c : Cookie) : Str := c.name ++ '=' :: c.value

/-- The flat egress shape used by `BrowserlessService.saveCookies`:
`cookies.map(c => name=value).join('; ')`. -/
def cookieJoinFlat : List Cookie → Str
  | [] => []
  | c :: cs =>
    match cs with
    | [] => pairStr c
    | _ :: _ => pairStr c ++ str "; " ++ cookieJoinFlat cs

/-!  ## The publish operations

`publishToNaverBlog` and `publishToTistory` are embedded as pure functions
from an environment record (one field per branch-relevant observation of the
live browser: URLs after navigation, selector hits, and an `Option Str`
error for every awaited call whose exception would reach the surrounding
`try`) to the returned result plus a `Trace` of the resource events:
browser/context opens and closes, `addCookies` invocations with the exact
jar injected, re-login helper invocations, and whether the submission
control was activated.  `finalCheck` records the `(finalUrl, postId)` pair
observed by the post-submission outcome classification, when that stage is
reached. -/

structure Trace where
  browserOpens : Nat := 0
  browserCloses : Nat := 0
  contextOpens : Nat := 0
  contextCloses : Nat := 0
  addCookiesCalls : List (List Cookie) := []
  loginAttempts : Nat := 0
  submitAttempted : Bool := false
  finalCheck : Option (Str × Str) := none
deriving Repr, DecidableEq

/-- The result shape of both publish functions:
`{ success, postId?, postUrl?, error?, newCookies? }`. -/
structure PublishResult where
  success : Bool
  postId : Option Str := none
  postUrl : Option Str := none
  error : Option Str := none
  newCookies : Option Str := none
deriving Repr, DecidableEq

def closeBoth (t : Trace) : Trace :=
  { t with contextCloses := t.contextCloses + 1, browserCloses := t.browserCloses + 1 }

def closeCtxOnly (t : Trace) : Trace :=
  { t with contextCloses := t.contextCloses + 1 }

/-- The `catch` block of either publish function: `context?.close()` and
`browser?.close()` run only on handles that were actually created (the
null-guarded optional calls of the source). -/
def closeCreated (t : Trace) : Trace :=
  { t with contextCloses := t.contextCloses + (if 0 < t.contextOpens then 1 else 0),
           browserCloses := t.browserCloses + (if 0 < t.browserOpens then 1 else 0) }

/-- The `catch (error)` return of either publish function. -/
def catchReturn (t : Trace) (m : Str) : PublishResult × Trace :=
  ({ success := false, error := some (str "발행 실패: " ++ m) }, closeCreated t)

/-- Truthiness of `credentials?.username && credentials?.password`. -/
def credsUsable : Option (Str × Str) → Bool
  | none => false
  | some (u, p) => !u.isEmpty && !p.isEmpty

def msgSessionExpired : Str := str "세션이 만료되었습니다. 매체 연동을 다시 테스트해주세요."
def msgReloginNotKept : Str := str "재로그인 후에도 세션이 유지되지 않습니다. 계정을 확인해주세요."
def msgNoIframe : Str := str "에디터 iframe을 찾을 수 없습니다."
def msgNoFrame : Str := str "에디터 프레임에 접근할 수 없습니다."
def msgUnconfirmedNaver : Str :=
  str "발행이 완료되었는지 확인할 수 없습니다. 네이버 블로그에서 직접 확인해주세요."
def msgNeedBlogUrl : Str :=
  str "티스토리 블로그 URL이 필요합니다. 매체 연동에서 블로그 URL(예: https://myblog.tistory.com)을 확인해주세요."
def msgNoBlogFound : Str :=
  str "발행할 블로그를 찾을 수 없습니다. 티스토리에 블로그가 있는지 확인해주세요."
def msgNoTitle : Str := str "제목 입력 필드를 찾지 못했습니다."
def msgNoContent : Str := str "본문 입력 필드를 찾지 못했습니다."
def msgUnconfirmedTistory : Str :=
  str "발행이 완료되었는지 확인할 수 없습니다. 티스토리에서 직접 확인해주세요."

/-- Environment of one `publishToNaverBlog` call.  `Option Str` fields are
the awaited calls whose thrown error (carrying that message) reaches the
outer `try`; `url1` is the location after navigating to `GoBlogWrite.naver`,
`url2` the location after the post-re-login retry of that navigation.
`titleSelHit`/`articlePHit` record whether any of the cascading title
selectors resolved — in this function a miss only positions the caret
nowhere and is logged, it changes no control flow, which is why no branch
of the model consumes these fields. -/
structure NaverEnv where
  launchErr : Option Str := none
  ctxErr : Option Str := none
  addCookiesErr : Option Str := none
  goto1Err : Option Str := none
  url1 : Str := []
  reloginOk : Bool := true
  reloginErrMsg : Str := []
  goto2Err : Option Str := none
  url2 : Str := []
  cookiesAfterRelogin : List Cookie := []
  iframeWaitErr : Option Str := none
  iframeFound : Bool := true
  frameOk : Bool := true
  titleSelHit : Bool := true
  articlePHit : Bool := true
  typingErr : Option Str := none
  pubBtnJsHit : Option Bool := some true
  pubBtnLocHit : Bool := true
  finalUrl : Option Str := some []
  newPage2Err : Option Str := none
  listGotoErr : Option Str := none
  latestHref : Option Str := none
  finalCookies : Option (List Cookie) := none
deriving Repr

abbrev Early := PublishResult × Trace

/-- `createFreshBrowser`, `newContext`, cookie parsing and injection, and
the first navigation to the write page. -/
def naverLaunch (env : NaverEnv) (cookies : Str) : Early ⊕ Trace :=
  let t0 : Trace := {}
  match env.launchErr with
  | some m => Sum.inl (catchReturn t0 m)
  | none =>
    let t1 : Trace := { t0 with browserOpens := 1 }
    match env.ctxErr with
    | some m => Sum.inl (catchReturn t1 m)
    | none =>
      let t2 : Trace := { t1 with contextOpens := 1 }
      let jar := parseCookieString cookies (str ".naver.com")
      let t3 : Trace := { t2 with addCookiesCalls := [jar] }
      match env.addCookiesErr with
      | some m => Sum.inl (catchReturn t3 m)
      | none =>
        match env.goto1Err with
        | some m => Sum.inl (catchReturn t3 m)
        | none => Sum.inr t3

/-- The session-expiry check on the URL after the first navigation:
at most one `performNaverLogin` and one retry of the navigation; a still
invalid session is a classified failure. -/
def naverSession (env : NaverEnv) (credentials : Option (Str × Str)) (t : Trace) :
    Early ⊕ Trace :=
  if hasSub env.url1 (str "nidlogin") || hasSub env.url1 (str "login") then
    if !credsUsable credentials then
      Sum.inl ({ success := false, error := some msgSessionExpired }, closeBoth t)
    else
      let t' := { t with loginAttempts := t.loginAttempts + 1 }
      if !env.reloginOk then
        Sum.inl ({ success := false,
                   error := some (str "재로그인 실패: " ++ env.reloginErrMsg) }, closeBoth t')
      else
        match env.goto2Err with
        | some m => Sum.inl (catchReturn t' m)
        | none =>
          if hasSub env.url2 (str "nidlogin") || hasSub env.url2 (str "login") then
            Sum.inl ({ success := false, error := some msgReloginNotKept }, closeBoth t')
          else Sum.inr t'
  else Sum.inr t

/-- Waiting for the editor iframe and resolving the frame handle; a missing
iframe or inaccessible frame is a classified failure.  The title-selector
cascade and the keyboard entry of title and body follow; selector misses
are only logged, and `typingErr` stands for any error thrown in that
region. -/
def naverEditor (env : NaverEnv) (t : Trace) : Early ⊕ Trace :=
  match env.iframeWaitErr with
  | some m => Sum.inl (catchReturn t m)
  | none =>
    if !env.iframeFound then
      Sum.inl ({ success := false, error := some msgNoIframe }, closeBoth t)
    else if !env.frameOk then
      Sum.inl ({ success := false, error := some msgNoFrame }, closeBoth t)
    else
      match env.typingErr with
      | some m => Sum.inl (catchReturn t m)
      | none => Sum.inr t

/-- The outcome classification shared by both final return sites:
`publishSuccess` is computed from the final URL, the canonical post URL is
assembled, and the refreshed cookie jar is serialized when readable. -/
def naverFinish (env : NaverEnv) (t : Trace) (blogId postId fu : Str) : Early :=
  let publishSuccess := !hasSub fu (str "Write") && !hasSub fu (str "Redirect")
  let postUrl :=
    if !postId.isEmpty then str "https://blog.naver.com/" ++ blogId ++ str "/" ++ postId
    else fu
  let newCookies := env.finalCookies.map encodeCookies
  let t' := closeBoth { t with finalCheck := some (fu, postId) }
  if publishSuccess || !postId.isEmpty then
    ({ success := true, postId := some postId, postUrl := some postUrl,
       newCookies := newCookies }, t')
  else
    ({ success := false, error := some msgUnconfirmedNaver, postUrl := some fu,
       newCookies := newCookies }, t')

/-- Blog-id extraction of `publishToNaverBlog`: first regex capture, then
the host-path capture, then the hard-coded `re-rank` default. -/
def naverBlogIdOf (fu : Str) : Str :=
  let blogId0 := ((matchKeyRun (str "blogId=") (fun c => c != '&') fu).orElse
      (fun _ => matchKeyRun (str "blog.naver.com/") (fun c => c != '/' && c != '?') fu)).getD []
  if blogId0.isEmpty then str "re-rank" else blogId0

/-- Post-id extraction of `publishToNaverBlog`: the `logNo` capture, empty
when absent. -/
def naverPostIdOf (fu : Str) : Str := (matchKeyRun (str "logNo=") Char.isDigit fu).getD []

/-- Publish-button activation (JS click, then locator fallback — neither
outcome branches the flow), final URL, blog-id and post-id extraction with
the hard-coded `re-rank` default, and the listing fallback that reads the
latest post of the defaulted blog when no post id was found. -/
def naverSubmitFinish (env : NaverEnv) (t : Trace) : Early :=
  let t' := { t with submitAttempted := true }
  let fu := env.finalUrl.getD []
  let blogId := naverBlogIdOf fu
  let postId0 := naverPostIdOf fu
  if postId0.isEmpty && !blogId.isEmpty then
    match env.newPage2Err with
    | some m => catchReturn t' m
    | none =>
      let postId1 :=
        match env.listGotoErr with
        | some _ => ([] : Str)
        | none =>
          match env.latestHref with
          | none => []
          | some href => naverPostIdOf href
      naverFinish env t' blogId postId1 fu
  else naverFinish env t' blogId postId0 fu

/-- `publishToNaverBlog(cookies, title, content, credentials?)`. -/
def runNaver (env : NaverEnv) (cookies title content : Str)
    (credentials : Option (Str × Str)) : PublishResult × Trace :=
  match naverLaunch env cookies with
  | Sum.inl out => out
  | Sum.inr t =>
    match naverSession env credentials t with
    | Sum.inl out => out
    | Sum.inr t' =>
      match naverEditor env t' with
      | Sum.inl out => out
      | Sum.inr t'' => naverSubmitFinish env t''

/-- Environment of one `publishToTistory` call; `url2` is the location
after navigating to the write page, `url3` after the post-re-login
navigation, `url4` after the arrival-check retry.  `accountLinks1` and
`accountLinks2` are the `href` attributes of the `쓰기` links of the
account layer (`none` when the layer never opened or threw — that region
is try/catch-swallowed). -/
structure TistoryEnv where
  launchErr : Option Str := none
  ctxErr : Option Str := none
  addCookiesErr : Option Str := none
  goto1Err : Option Str := none
  accountLinks1 : Option (List (Option Str)) := none
  goto2Err : Option Str := none
  url2 : Str := []
  reloginOk : Bool := true
  reloginErrMsg : Str := []
  reloginCookieStr : Str := []
  addCookies2Err : Option Str := none
  goto3aErr : Option Str := none
  accountLinks2 : Option (List (Option Str)) := none
  goto3Err : Option Str := none
  url3 : Str := []
  goto4Err : Option Str := none
  url4 : Str := []
  titleS1 : Bool := false
  titleS2 : Bool := false
  titleS3 : Bool := false
  contentHtmlHit : Bool := false
  contentTextHit : Bool := false
  pubRoleHit : Bool := false
  pubSelHit : Bool := false
  finalUrl : Option Str := some []
  finalCookies : Option (List Cookie) := none
deriving Repr

/-- The account-layer loop of the pre-login blog discovery: first link whose
blog name occurs in `blogUrl` wins and breaks; otherwise the dead initial
branch; the flag records whether a match was found. -/
def pickLoop1 (blogUrl : Str) : List (Option Str) → Bool → Str → Bool × Str
  | [], fm, a => (fm, a)
  | none :: rest, fm, a => pickLoop1 blogUrl rest fm a
  | some href :: rest, fm, a =>
    match tistoryHost href with
    | none => pickLoop1 blogUrl rest fm a
    | some found =>
      if !blogUrl.isEmpty && hasSub blogUrl found then (true, found)
      else if !fm && a.isEmpty then pickLoop1 blogUrl rest fm found
      else pickLoop1 blogUrl rest fm a

/-- Blog discovery from the account layer: run the matching loop, then (when
nothing matched) fall back to the first link's blog name. -/
def pickBlog1 (blogUrl a0 : Str) (links : List (Option Str)) : Str :=
  let fa := pickLoop1 blogUrl links false a0
  if !fa.1 && !links.isEmpty then
    match links.head? with
    | some (some href) =>
      match tistoryHost href with
      | some m => m
      | none => fa.2
    | _ => fa.2
  else fa.2

/-- The post-re-login account-layer loop: skips the `www` pseudo-blog,
breaks on a `blogUrl` match, otherwise keeps the first non-matching blog
while the current value is still the original parameter-derived name. -/
def pickLoop2 (blogUrl blogName : Str) : List (Option Str) → Str → Str
  | [], a => a
  | none :: rest, a => pickLoop2 blogUrl blogName rest a
  | some href :: rest, a =>
    match tistoryHost href with
    | none => pickLoop2 blogUrl blogName rest a
    | some found =>
      if found == str "www" then pickLoop2 blogUrl blogName rest a
      else if !blogUrl.isEmpty && hasSub blogUrl found then found
      else if a.isEmpty || a == blogName then pickLoop2 blogUrl blogName rest found
      else pickLoop2 blogUrl blogName rest a

/-- Launch, context, cookie injection, blog-name extraction from `blogUrl`
(required), navigation to the Tistory main page, account-layer discovery,
and navigation to the write page.  On the missing-blog-name return the
source closes context *and* browser; on the (dead) empty-discovery return
it closes only the context. -/
def tistoryLaunch (env : TistoryEnv) (cookies blogUrl : Str) :
    Early ⊕ (Str × Str × Trace) :=
  let t0 : Trace := {}
  match env.launchErr with
  | some m => Sum.inl (catchReturn t0 m)
  | none =>
    let t1 : Trace := { t0 with browserOpens := 1 }
    match env.ctxErr with
    | some m => Sum.inl (catchReturn t1 m)
    | none =>
      let t2 : Trace := { t1 with contextOpens := 1 }
      let jar := parseCookieString cookies (str ".tistory.com")
      let t3 : Trace := { t2 with addCookiesCalls := [jar] }
      match env.addCookiesErr with
      | some m => Sum.inl (catchReturn t3 m)
      | none =>
        let blogName := (tistoryHost blogUrl).getD []
        if blogName.isEmpty then
          Sum.inl ({ success := false, error := some msgNeedBlogUrl }, closeBoth t3)
        else
          match env.goto1Err with
          | some m => Sum.inl (catchReturn t3 m)
          | none =>
            let actual1 :=
              match env.accountLinks1 with
              | none => blogName
              | some links => pickBlog1 blogUrl blogName links
            if actual1.isEmpty then
              Sum.inl ({ success := false, error := some msgNoBlogFound }, closeCtxOnly t3)
            else
              match env.goto2Err with
              | some m => Sum.inl (catchReturn t3 m)
              | none => Sum.inr (blogName, actual1, t3)

/-- The session-expiry check on the URL after navigating to the write page;
at most one `performTistoryLogin`, whose returned `JSON.stringify`d cookie
string is re-parsed (`JSON.parse` may throw to the outer catch), re-injected,
and followed by a fresh blog discovery and one retry navigation.  All
classified failure returns in this region close only the context.  The
continuation carries the current URL, the discovered blog name and the
current cookie string variable. -/
def tistorySession (env : TistoryEnv) (blogUrl blogName username password : Str)
    (actual1 : Str) (cookies : Str) (t : Trace) : Early ⊕ (Str × Str × Str × Trace) :=
  if hasSub env.url2 (str "auth/login") || hasSub env.url2 (str "kakao") ||
     hasSub env.url2 (str "accounts.kakao") then
    if username.isEmpty || password.isEmpty then
      Sum.inl ({ success := false, error := some msgSessionExpired }, closeCtxOnly t)
    else
      let t' := { t with loginAttempts := t.loginAttempts + 1 }
      if !env.reloginOk then
        Sum.inl ({ success := false,
                   error := some (str "재로그인 실패: " ++ env.reloginErrMsg) }, closeCtxOnly t')
      else
        match jsonParseCookies env.reloginCookieStr with
        | none => Sum.inl (catchReturn t' (str "Unexpected token"))
        | some arr =>
          let t2 := { t' with addCookiesCalls := t'.addCookiesCalls ++ [arr] }
          match env.addCookies2Err with
          | some m => Sum.inl (catchReturn t2 m)
          | none =>
            match env.goto3aErr with
            | some m => Sum.inl (catchReturn t2 m)
            | none =>
              let actual2 :=
                match env.accountLinks2 with
                | none => actual1
                | some links => pickLoop2 blogUrl blogName links actual1
              match env.goto3Err with
              | some m => Sum.inl (catchReturn t2 m)
              | none => Sum.inr (env.url3, actual2, env.reloginCookieStr, t2)
  else Sum.inr (env.url2, actual1, cookies, t)

/-- Arrival check for the write page, with its error-page classification and
one retry of the original write-page navigation; both failure returns close
only the context. -/
def tistoryArrival (env : TistoryEnv) (blogUrl currentUrl : Str) (t : Trace) :
    Early ⊕ Trace :=
  if !(hasSub currentUrl (str "/manage/newpost") || hasSub currentUrl (str "/manage/post")) then
    if hasSub currentUrl (str "error") || hasSub currentUrl (str "404") then
      Sum.inl ({ success := false,
                 error := some (str "티스토리 글쓰기 페이지에 접근할 수 없습니다. 블로그 URL(" ++
                   blogUrl ++ str ")을 확인해주세요.") }, closeCtxOnly t)
    else
      match env.goto4Err with
      | some m => Sum.inl (catchReturn t m)
      | none =>
        if !(hasSub env.url4 (str "/manage/newpost") || hasSub env.url4 (str "/manage/post")) then
          Sum.inl ({ success := false,
                     error := some (str "글쓰기 페이지에 접근할 수 없습니다. 현재 URL: " ++
                       env.url4) }, closeCtxOnly t)
        else Sum.inr t
  else Sum.inr t

/-- Title and body entry (classified failures that close only the context),
completion-button activation (whose keyboard fallback unconditionally sets
`publishClicked`), and the outcome classification: the code deliberately
treats an unverified submission as success, so the unconfirmed-failure
return below it is unreachable.  The `page.url()`-throw path returns
success with only the context closed. -/
def tistoryEntryFinish (env : TistoryEnv) (blogName cookieStr : Str) (t : Trace) : Early :=
  let titleEntered := env.titleS1 || env.titleS2 || env.titleS3
  if !titleEntered then
    ({ success := false, error := some msgNoTitle }, closeCtxOnly t)
  else
    let contentEntered := env.contentHtmlHit || env.contentTextHit
    if !contentEntered then
      ({ success := false, error := some msgNoContent }, closeCtxOnly t)
    else
      let t' := { t with submitAttempted := true }
      let publishClicked0 := env.pubRoleHit || env.pubSelHit
      let publishClicked := if !publishClicked0 then true else publishClicked0
      match env.finalUrl with
      | none =>
        ({ success := true,
           postUrl := some (str "https://" ++ blogName ++ str ".tistory.com"),
           newCookies := some cookieStr }, closeCtxOnly t')
      | some fu =>
        let postId := (tistoryPostId fu).getD []
        let ps0 := !hasSub fu (str "/manage/newpost") && !hasSub fu (str "/manage/post/")
        let ps1 :=
          if !ps0 && hasSub fu (str "/manage/") then
            if hasSub fu (str "/manage/posts") || hasSub fu (str "/manage/category") ||
               hasSub fu (str "/manage/statistics") then true else ps0
          else ps0
        let ps := if !ps1 then publishClicked else ps1
        let newCookies := env.finalCookies.map encodeCookies
        let postUrl :=
          if !postId.isEmpty && !blogName.isEmpty then
            str "https://" ++ blogName ++ str ".tistory.com/" ++ postId
          else fu
        let t2 := closeBoth { t' with finalCheck := some (fu, postId) }
        if ps || !postId.isEmpty then
          ({ success := true, postId := some postId, postUrl := some postUrl,
             newCookies := newCookies }, t2)
        else
          ({ success := false, error := some msgUnconfirmedTistory, postUrl := some fu,
             newCookies := newCookies }, t2)

/-- `publishToTistory(cookies, blogUrl, username, password, title, content)`. -/
def runTistory (env : TistoryEnv) (cookies blogUrl username password title content : Str) :
    PublishResult × Trace :=
  match tistoryLaunch env cookies blogUrl with
  | Sum.inl out => out
  | Sum.inr (blogName, actual1, t) =>
    match tistorySession env blogUrl blogName username password actual1 cookies t with
    | Sum.inl out => out
    | Sum.inr (currentUrl, _actual2, cookieStr, t') =>
      match tistoryArrival env blogUrl currentUrl t' with
      | Sum.inl out => out
      | Sum.inr t'' => tistoryEntryFinish env blogName cookieStr t''

/-!  ## The remote interactive session broker (`BrowserlessService`)

Only the state-relevant behaviour is modelled: the session map keyed by
session id, and which sessions get their context/browser closed.  The
opportunistic account-info extraction inside `saveCookies` is wrapped in
swallowed try/catch blocks in the source and has no effect on control flow
or state, so it is omitted. -/

inductive Platform where
  | tistory
  | naver
deriving Repr, DecidableEq

abbrev Sessions := List (Str × Platform)

def lookupSession : Sessions → Str → Option Platform
  | [], _ => none
  | (k, v) :: r, sid => if k == sid then some v else lookupSession r sid

def removeSession : Sessions → Str → Sessions
  | [], _ => []
  | (k, v) :: r, sid =>
    if k == sid then removeSession r sid else (k, v) :: removeSession r sid

/-- `closeSession(sessionId)`: when the id is registered, close its context
and browser and delete the map entry; otherwise do nothing.  The second
component lists the session ids whose context/browser were closed. -/
def closeSessionModel (m : Sessions) (sid : Str) : Sessions × List Str :=
  match lookupSession m sid with
  | some _ => (removeSession m sid, [sid])
  | none => (m, [])

/-- Environment of one `saveCookies` call: whether `context.cookies()`
throws, the cookie jar it returns, whether a page exists, and its URL. -/
structure SaveEnv where
  ctxCookiesErr : Bool := false
  cookies : List Cookie := []
  hasPage : Bool := true
  currentUrl : Str := []
deriving Repr

structure SaveResult where
  success : Bool
  cookies : Option Str := none
  message : Str
deriving Repr, DecidableEq

/-- The login-completion heuristic of `saveCookies`, per platform. -/
def brokerLoggedIn (p : Platform) (currentUrl : Str) (cookies : List Cookie) : Bool :=
  match p with
  | .tistory =>
    !hasSub currentUrl (str "/auth/login") &&
      (hasSub currentUrl (str "tistory.com") || cookies.any (fun c => c.name == str "TSSESSION"))
  | .naver =>
    !hasSub currentUrl (str "nidlogin") && !hasSub currentUrl (str "/login") &&
      cookies.any (fun c => c.name == str "NID_AUT" || c.name == str "NID_SES")

/-- `BrowserlessService.saveCookies(sessionId)`: result, updated session
map, and the list of sessions closed by the call.  (The catch branch's
message interpolates the thrown error; a fixed placeholder stands for it.) -/
def saveCookies (m : Sessions) (sid : Str) (env : SaveEnv) :
    SaveResult × Sessions × List Str :=
  match lookupSession m sid with
  | none =>
    ({ success := false, message := str "세션을 찾을 수 없습니다. 브라우저를 다시 열어주세요." }, m, [])
  | some platform =>
    if env.ctxCookiesErr then
      ({ success := false, message := str "쿠키 저장 중 오류: context closed" }, m, [])
    else if env.cookies.isEmpty then
      ({ success := false, message := str "쿠키를 찾을 수 없습니다. 로그인이 완료되었는지 확인해주세요." }, m, [])
    else if !env.hasPage then
      ({ success := false, message := str "브라우저 페이지를 찾을 수 없습니다." }, m, [])
    else if !brokerLoggedIn platform env.currentUrl env.cookies then
      ({ success := false, message := str "로그인이 완료되지 않았습니다. 로그인을 완료한 후 다시 시도해주세요." }, m, [])
    else
      let out := closeSessionModel m sid
      ({ success := true, cookies := some (cookieJoinFlat env.cookies),
         message := str "쿠키가 성공적으로 저장되었습니다." }, out.1, out.2)

/-!  ## Concrete runs used by individual claims -/

/-- `publishToTistory` landing on the Kakao login page with no stored
credentials: the classified session-expired return closes only the context. -/
def c1LeakEnv : TistoryEnv :=
  { url2 := str "https://accounts.kakao.com/login?continue=https://www.tistory.com" }

def c1Run : PublishResult × Trace :=
  runTistory c1LeakEnv (str "TSSESSION=abc") (str "https://myblog.tistory.com") [] []
    (str "제목") (str "본문")

/-- A clean `publishToNaverBlog` run whose first navigation already shows the
editor (no login redirect). -/
def c3Env : NaverEnv := { url1 := str "https://blog.naver.com/GoBlogWrite.naver" }

def c3Run : PublishResult × Trace :=
  runNaver c3Env (str "garbage") (str "제목") (str "본문") none

/-- A `publishToNaverBlog` run for a tenant whose artifact names the blog
`alice-blog`, in which the post-submission `page.url()` read throws and the
listing fallback finds a post on the hard-coded default blog. -/
def c4Env : NaverEnv :=
  { url1 := str "https://blog.naver.com/GoBlogWrite.naver",
    finalUrl := none,
    latestHref := some (str "/PostView.naver?blogId=re-rank&logNo=999") }

def c4Run : PublishResult × Trace :=
  runNaver c4Env (str "NID_AUT=tenant-alice; NID_SES=alice-session") (str "제목") (str "본문")
    none

/-- A `publishToTistory` run in which the submission was clicked but the
final location is still the authoring surface and no post id is extracted. -/
def c5Env : TistoryEnv :=
  { url2 := str "https://myblog.tistory.com/manage/newpost/?type=post",
    titleS1 := true, contentHtmlHit := true,
    finalUrl := some (str "https://myblog.tistory.com/manage/newpost/?type=post"),
    finalCookies := some [⟨str "TSSESSION", str "abc", str ".tistory.com", str "/"⟩] }

def c5Run : PublishResult × Trace :=
  runTistory c5Env (str "TSSESSION=abc") (str "https://myblog.tistory.com") (str "user")
    (str "pw") (str "제목") (str "본문")

/-- A `publishToNaverBlog` run whose injected session is expired and that
has no stored credentials, while the context still holds live cookies. -/
def c6Env : NaverEnv :=
  { url1 := str "https://nid.naver.com/nidlogin.login?mode=form",
    finalCookies := some [⟨str "NID_AUT", str "rotated", str ".naver.com", str "/"⟩] }

def c6Run : PublishResult × Trace :=
  runNaver c6Env (str "NID_AUT=old") (str "제목") (str "본문") none

/-- A `publishToNaverBlog` run in which every cascading title selector and
the `article p` fallback fail to resolve. -/
def c8Env : NaverEnv :=
  { url1 := str "https://blog.naver.com/GoBlogWrite.naver",
    titleSelHit := false, articlePHit := false,
    finalUrl := some (str "https://blog.naver.com/alice?logNo=55") }

def c8Run : PublishResult × Trace :=
  runNaver c8Env (str "NID_AUT=x") (str "제목") (str "본문") none

/-- A valid one-entry cookie jar scoped to a non-default domain. -/
def c9Jar : List Cookie := [⟨str "a", str "1", str "example.com", str "/"⟩]

/-- The pieces that splitting the canonical serialization of a nonempty
cookie array on the quote character produces, cookie fields interleaved
with the fixed punctuation chunks. -/

def encPieces : Cookie → List Cookie → List Str
  | c, cs =>
    str "name" :: str ":" :: c.name :: str "," :: str "value" :: str ":" :: c.value :: str "," ::
    str "domain" :: str ":" :: c.domain :: str "," :: str "path" :: str ":" :: c.path ::
    (match cs with
     | [] => [str "\x7d]"]
     | c' :: cs' => str "\x7d,\x7b" :: encPieces c' cs')

/-- A cookie every field of which is free of the quote character, so that
its canonical JSON serialization is the no-escape shape `jsonParseCookies`
reads back. -/

def WfJsonCookie (c : Cookie) : Prop :=
  (∀ a ∈ c.name, a ≠ '"') ∧ (∀ a ∈ c.value, a ≠ '"') ∧
  (∀ a ∈ c.domain, a ≠ '"') ∧ (∀ a ∈ c.path, a ≠ '"')

instance (c : Cookie) : Decidable (WfJsonCookie c) := by
  unfold WfJsonCookie
  infer_instance

/-- A cookie whose name is nonempty and whose name and value avoid the
separator, equals sign (name only), quote and whitespace characters: the
shape `BrowserlessService.saveCookies` emits into its flat string. -/

def WfFlatCookie (c : Cookie) : Prop :=
  c.name ≠ [] ∧
  (∀ a ∈ c.name, a ≠ ';' ∧ a ≠ '=' ∧ a ≠ '"' ∧ wsChar a = false) ∧
  (∀ a ∈ c.value, a ≠ ';' ∧ a ≠ '"' ∧ wsChar a = false)

instance (c : Cookie) : Decidable (WfFlatCookie c) := by
  unfold WfFlatCookie
  infer_instance

/-- A `publishToNaverBlog` environment whose injected session is expired,
whose stored credentials log in, and whose post-login URL is still a login
surface, so the single re-login attempt does not stick. -/

def c2Env : NaverEnv :=
  { url1 := str "https://nid.naver.com/nidlogin.login",
    url2 := str "https://nid.naver.com/nidlogin.login" }

/-- A `publishToNaverBlog` environment landing on the login surface with no
way to re-login. -/

def c7nEnv : NaverEnv := { url1 := str "https://nid.naver.com/nidlogin.login?mode=form" }

/-- A `publishToTistory` environment landing on the Kakao login surface. -/

def c7tEnv : TistoryEnv := { url2 := str "https://accounts.kakao.com/login?continue=x" }

/-- A `publishToTistory` environment arriving at the editor with every
title selector missing. -/

def c8tEnv : TistoryEnv := { url2 := str "https://myblog.tistory.com/manage/newpost/?type=post" }

/-- A one-session `BrowserlessService` map. -/

def c10Map : Sessions := [(str "s1", Platform.naver)]

/-- A `saveCookies` environment in which the page is still on the login
surface, so the capture is pending. -/

def c10PendingEnv : SaveEnv :=
  { cookies := [⟨str "NID_AUT", str "z", str ".naver.com", str "/"⟩],
    currentUrl := str "https://nid.naver.com/nidlogin.login" }

/-!  ## Trace bookkeeping lemmas -/

@[simp] theorem closeBoth_browserOpens (t : Trace) : (closeBoth t).browserOpens = t.browserOpens := rfl
@[simp] theorem closeBoth_contextOpens (t : Trace) : (closeBoth t).contextOpens = t.contextOpens := rfl
@[simp] theorem closeBoth_loginAttempts (t : Trace) : (closeBoth t).loginAttempts = t.loginAttempts := rfl
@[simp] theorem closeBoth_addCookiesCalls (t : Trace) : (closeBoth t).addCookiesCalls = t.addCookiesCalls := rfl
@[simp] theorem closeBoth_submitAttempted (t : Trace) : (closeBoth t).submitAttempted = t.submitAttempted := rfl
@[simp] theorem closeBoth_finalCheck (t : Trace) : (closeBoth t).finalCheck = t.finalCheck := rfl
@[simp] theorem closeCtxOnly_browserOpens (t : Trace) : (closeCtxOnly t).browserOpens = t.browserOpens := rfl
@[simp] theorem closeCtxOnly_browserCloses (t : Trace) : (closeCtxOnly t).browserCloses = t.browserCloses := rfl
@[simp] theorem closeCtxOnly_contextOpens (t : Trace) : (closeCtxOnly t).contextOpens = t.contextOpens := rfl
@[simp] theorem closeCtxOnly_loginAttempts (t : Trace) : (closeCtxOnly t).loginAttempts = t.loginAttempts := rfl
@[simp] theorem closeCtxOnly_addCookiesCalls (t : Trace) : (closeCtxOnly t).addCookiesCalls = t.addCookiesCalls := rfl
@[simp] theorem closeCtxOnly_submitAttempted (t : Trace) : (closeCtxOnly t).submitAttempted = t.submitAttempted := rfl
@[simp] theorem closeCtxOnly_finalCheck (t : Trace) : (closeCtxOnly t).finalCheck = t.finalCheck := rfl
@[simp] theorem closeCreated_loginAttempts (t : Trace) : (closeCreated t).loginAttempts = t.loginAttempts := rfl
@[simp] theorem closeCreated_addCookiesCalls (t : Trace) : (closeCreated t).addCookiesCalls = t.addCookiesCalls := rfl
@[simp] theorem closeCreated_submitAttempted (t : Trace) : (closeCreated t).submitAttempted = t.submitAttempted := rfl
@[simp] theorem closeCreated_finalCheck (t : Trace) : (closeCreated t).finalCheck = t.finalCheck := rfl
@[simp] theorem catchReturn_success (t : Trace) (m : Str) : (catchReturn t m).1.success = false := rfl
@[simp] theorem catchReturn_newCookies (t : Trace) (m : Str) : (catchReturn t m).1.newCookies = none := rfl
@[simp] theorem catchReturn_error (t : Trace) (m : Str) :
    (catchReturn t m).1.error = some (str "발행 실패: " ++ m) := rfl
@[simp] theorem catchReturn_snd (t : Trace) (m : Str) : (catchReturn t m).2 = closeCreated t := rfl

theorem if_bang_self (b : Bool) : (if (!b) = true then true else b) = true := by
  cases b <;> simp

/-!  ## Per-stage facts about `publishToNaverBlog` -/

theorem naverLaunch_inl {env : NaverEnv} {cookies : Str} {out : Early}
    (h : naverLaunch env cookies = Sum.inl out) :
    out.1.success = false ∧ out.1.newCookies = none ∧ out.2.loginAttempts = 0 ∧
    out.2.finalCheck = none ∧ out.2.submitAttempted = false := by
  unfold naverLaunch at h
  try dsimp only [] at h
  repeat' (first | split at h | split_ifs at h)
  all_goals (try (cases h))
  all_goals simp_all

theorem naverLaunch_inr {env : NaverEnv} {cookies : Str} {t : Trace}
    (h : naverLaunch env cookies = Sum.inr t) :
    t.loginAttempts = 0 ∧ t.finalCheck = none ∧ t.submitAttempted = false ∧
    t.addCookiesCalls = [parseCookieString cookies (str ".naver.com")] := by
  unfold naverLaunch at h
  try dsimp only [] at h
  repeat' (first | split at h | split_ifs at h)
  all_goals (try (cases h))
  all_goals simp_all

theorem naverLaunch_inl_calls {env : NaverEnv} {cookies : Str} {out : Early}
    (h1 : env.launchErr = none) (h2 : env.ctxErr = none)
    (h : naverLaunch env cookies = Sum.inl out) :
    out.2.addCookiesCalls = [parseCookieString cookies (str ".naver.com")] := by
  unfold naverLaunch at h
  simp only [h1, h2] at h
  repeat' (first | split at h | split_ifs at h)
  all_goals (try (cases h))
  all_goals simp_all

theorem naverSession_inl {env : NaverEnv} {creds : Option (Str × Str)} {t : Trace} {out : Early}
    (h : naverSession env creds t = Sum.inl out) :
    out.1.success = false ∧ out.1.newCookies = none ∧
    out.2.loginAttempts ≤ t.loginAttempts + 1 ∧ out.2.finalCheck = t.finalCheck ∧
    out.2.submitAttempted = t.submitAttempted ∧
    out.2.addCookiesCalls = t.addCookiesCalls := by
  unfold naverSession at h
  try dsimp only [] at h
  repeat' (first | split at h | split_ifs at h)
  all_goals (try (cases h))
  all_goals simp_all

theorem naverSession_inr {env : NaverEnv} {creds : Option (Str × Str)} {t t' : Trace}
    (h : naverSession env creds t = Sum.inr t') :
    t'.loginAttempts ≤ t.loginAttempts + 1 ∧ t'.finalCheck = t.finalCheck ∧
    t'.submitAttempted = t.submitAttempted ∧ t'.addCookiesCalls = t.addCookiesCalls := by
  unfold naverSession at h
  try dsimp only [] at h
  repeat' (first | split at h | split_ifs at h)
  all_goals (try (cases h))
  all_goals simp_all

theorem naverEditor_inl {env : NaverEnv} {t : Trace} {out : Early}
    (h : naverEditor env t = Sum.inl out) :
    out.1.success = false ∧ out.1.newCookies = none ∧
    out.2.loginAttempts = t.loginAttempts ∧ out.2.finalCheck = t.finalCheck ∧
    out.2.submitAttempted = t.submitAttempted ∧
    out.2.addCookiesCalls = t.addCookiesCalls := by
  unfold naverEditor at h
  try dsimp only [] at h
  repeat' (first | split at h | split_ifs at h)
  all_goals (try (cases h))
  all_goals simp_all

theorem naverEditor_inr {env : NaverEnv} {t t' : Trace}
    (h : naverEditor env t = Sum.inr t') : t' = t := by
  unfold naverEditor at h
  try dsimp only [] at h
  repeat' (first | split at h | split_ifs at h)
  all_goals (try (cases h))
  all_goals simp_all

theorem naverFinish_spec (env : NaverEnv) (t : Trace) (blogId postId fu : Str) :
    (naverFinish env t blogId postId fu).2.loginAttempts = t.loginAttempts ∧
    (naverFinish env t blogId postId fu).2.addCookiesCalls = t.addCookiesCalls ∧
    (naverFinish env t blogId postId fu).2.submitAttempted = t.submitAttempted ∧
    (naverFinish env t blogId postId fu).2.finalCheck = some (fu, postId) ∧
    (naverFinish env t blogId postId fu).1.success =
      ((!hasSub fu (str "Write") && !hasSub fu (str "Redirect")) || !postId.isEmpty) ∧
    (naverFinish env t blogId postId fu).1.newCookies = env.finalCookies.map encodeCookies := by
  cases hW : hasSub fu (str "Write") <;> cases hR : hasSub fu (str "Redirect") <;>
    cases hp : postId.isEmpty <;>
    simp_all [naverFinish]

theorem naverSubmitFinish_spec (env : NaverEnv) (t : Trace) :
    (naverSubmitFinish env t).2.loginAttempts = t.loginAttempts ∧
    (naverSubmitFinish env t).2.addCookiesCalls = t.addCookiesCalls ∧
    (naverSubmitFinish env t).2.submitAttempted = true ∧
    (((naverSubmitFinish env t).2.finalCheck = t.finalCheck ∧
      (naverSubmitFinish env t).1.success = false ∧
      (naverSubmitFinish env t).1.newCookies = none) ∨
     (∃ u pid, (naverSubmitFinish env t).2.finalCheck = some (u, pid) ∧
       (naverSubmitFinish env t).1.success =
         ((!hasSub u (str "Write") && !hasSub u (str "Redirect")) || !pid.isEmpty) ∧
       (naverSubmitFinish env t).1.newCookies = env.finalCookies.map encodeCookies)) := by
  simp only [naverSubmitFinish]
  split_ifs
  all_goals repeat' split
  all_goals simp [naverFinish_spec]
  all_goals exact Or.inr ⟨_, _, ⟨rfl, rfl⟩, by simp⟩

/-!  ## Per-stage facts about `publishToTistory` -/

theorem tistoryLaunch_inl {env : TistoryEnv} {cookies blogUrl : Str} {out : Early}
    (h : tistoryLaunch env cookies blogUrl = Sum.inl out) :
    out.1.success = false ∧ out.1.newCookies = none ∧ out.2.loginAttempts = 0 ∧
    out.2.finalCheck = none ∧ out.2.submitAttempted = false := by
  unfold tistoryLaunch at h
  try dsimp only [] at h
  repeat' (first | split at h | split_ifs at h)
  all_goals (try (cases h))
  all_goals simp_all

theorem tistoryLaunch_inr {env : TistoryEnv} {cookies blogUrl bn a1 : Str} {t : Trace}
    (h : tistoryLaunch env cookies blogUrl = Sum.inr (bn, a1, t)) :
    t.loginAttempts = 0 ∧ t.finalCheck = none ∧ t.submitAttempted = false ∧
    t.addCookiesCalls = [parseCookieString cookies (str ".tistory.com")] := by
  unfold tistoryLaunch at h
  try dsimp only [] at h
  repeat' (first | split at h | split_ifs at h)
  all_goals (try (cases h))
  all_goals simp_all

theorem tistoryLaunch_inl_calls {env : TistoryEnv} {cookies blogUrl : Str} {out : Early}
    (h1 : env.launchErr = none) (h2 : env.ctxErr = none)
    (h : tistoryLaunch env cookies blogUrl = Sum.inl out) :
    out.2.addCookiesCalls = [parseCookieString cookies (str ".tistory.com")] := by
  unfold tistoryLaunch at h
  simp only [h1, h2] at h
  repeat' (first | split at h | split_ifs at h)
  all_goals (try (cases h))
  all_goals simp_all

theorem tistorySession_inl {env : TistoryEnv} {blogUrl blogName username password a1 cookies : Str}
    {t : Trace} {out : Early}
    (h : tistorySession env blogUrl blogName username password a1 cookies t = Sum.inl out) :
    out.1.success = false ∧ out.1.newCookies = none ∧
    out.2.loginAttempts ≤ t.loginAttempts + 1 ∧ out.2.finalCheck = t.finalCheck ∧
    out.2.submitAttempted = t.submitAttempted ∧
    (∃ ex, out.2.addCookiesCalls = t.addCookiesCalls ++ ex) := by
  unfold tistorySession at h
  try dsimp only [] at h
  repeat' (first | split at h | split_ifs at h)
  all_goals (try (cases h))
  all_goals simp_all

theorem tistorySession_inr {env : TistoryEnv} {blogUrl blogName username password a1 cookies : Str}
    {t t' : Trace} {u a2 cs : Str}
    (h : tistorySession env blogUrl blogName username password a1 cookies t = Sum.inr (u, a2, cs, t')) :
    t'.loginAttempts ≤ t.loginAttempts + 1 ∧ t'.finalCheck = t.finalCheck ∧
    t'.submitAttempted = t.submitAttempted ∧
    (∃ ex, t'.addCookiesCalls = t.addCookiesCalls ++ ex) := by
  unfold tistorySession at h
  try dsimp only [] at h
  repeat' (first | split at h | split_ifs at h)
  all_goals (try (cases h))
  all_goals simp_all

theorem tistoryArrival_inl {env : TistoryEnv} {blogUrl currentUrl : Str} {t : Trace} {out : Early}
    (h : tistoryArrival env blogUrl currentUrl t = Sum.inl out) :
    out.1.success = false ∧ out.1.newCookies = none ∧
    out.2.loginAttempts = t.loginAttempts ∧ out.2.finalCheck = t.finalCheck ∧
    out.2.submitAttempted = t.submitAttempted ∧
    out.2.addCookiesCalls = t.addCookiesCalls := by
  unfold tistoryArrival at h
  try dsimp only [] at h
  repeat' (first | split at h | split_ifs at h)
  all_goals (try (cases h))
  all_goals simp_all

theorem tistoryArrival_inr {env : TistoryEnv} {blogUrl currentUrl : Str} {t t' : Trace}
    (h : tistoryArrival env blogUrl currentUrl t = Sum.inr t') : t' = t := by
  unfold tistoryArrival at h
  try dsimp only [] at h
  repeat' (first | split at h | split_ifs at h)
  all_goals (try (cases h))
  all_goals simp_all

theorem tistoryEntryFinish_spec (env : TistoryEnv) (bn cs : Str) (t : Trace) :
    (tistoryEntryFinish env bn cs t).2.loginAttempts = t.loginAttempts ∧
    (tistoryEntryFinish env bn cs t).2.addCookiesCalls = t.addCookiesCalls ∧
    (((tistoryEntryFinish env bn cs t).2.finalCheck = t.finalCheck ∧
      (tistoryEntryFinish env bn cs t).1.success = false ∧
      (tistoryEntryFinish env bn cs t).1.newCookies = none ∧
      (tistoryEntryFinish env bn cs t).2.submitAttempted = t.submitAttempted) ∨
     ((tistoryEntryFinish env bn cs t).2.finalCheck = t.finalCheck ∧
      (tistoryEntryFinish env bn cs t).1.success = true ∧
      (tistoryEntryFinish env bn cs t).1.newCookies = some cs) ∨
     (∃ u pid, (tistoryEntryFinish env bn cs t).2.finalCheck = some (u, pid) ∧
       (tistoryEntryFinish env bn cs t).1.success = true ∧
       (tistoryEntryFinish env bn cs t).1.newCookies = env.finalCookies.map encodeCookies)) := by
  simp only [tistoryEntryFinish]
  split_ifs
  all_goals repeat' split
  all_goals simp_all [if_bang_self]
  all_goals (try exact Or.inr (Or.inr ⟨_, _, ⟨rfl, rfl⟩, rfl⟩))

/-!  ## Facts about the broker's `saveCookies` -/

theorem saveCookies_not_success {m : Sessions} {sid : Str} {env : SaveEnv}
    (h : (saveCookies m sid env).1.success = false) :
    (saveCookies m sid env).2.1 = m ∧ (saveCookies m sid env).2.2 = [] := by
  unfold saveCookies at h ⊢
  repeat' split at h <;> repeat' split
  all_goals simp_all

theorem saveCookies_success {m : Sessions} {sid : Str} {env : SaveEnv}
    (h : (saveCookies m sid env).1.success = true) :
    lookupSession m sid ≠ none ∧
    (saveCookies m sid env).2.1 = removeSession m sid ∧
    (saveCookies m sid env).2.2 = [sid] := by
  unfold saveCookies at h ⊢
  repeat' split at h <;> repeat' split
  all_goals simp_all [closeSessionModel]
  all_goals (repeat' split) <;> simp_all

/-!  ## Cookie serialization round trips -/

theorem splitOnChar_ne_nil (sep : Char) (s : Str) : splitOnChar sep s ≠ [] := by
  induction s with
  | nil => simp [splitOnChar]
  | cons c r ih =>
    unfold splitOnChar
    split_ifs
    · simp
    · cases h : splitOnChar sep r with
      | nil => simp
      | cons a b => simp

theorem splitOnChar_of_not_mem {sep : Char} {x : Str} (h : ∀ a ∈ x, a ≠ sep) :
    splitOnChar sep x = [x] := by
  induction x with
  | nil => rfl
  | cons c r ih =>
    have hc : c ≠ sep := h c (by simp)
    have ih' := ih (fun a ha => h a (by simp [ha]))
    unfold splitOnChar
    simp [hc, ih']

theorem splitOnChar_append {sep : Char} {x : Str} (y : Str) (h : ∀ a ∈ x, a ≠ sep) :
    splitOnChar sep (x ++ sep :: y) = x :: splitOnChar sep y := by
  induction x with
  | nil => simp [splitOnChar]
  | cons c r ih =>
    have hc : (c == sep) = false := by
      simp only [beq_eq_false_iff_ne, ne_eq]
      exact h c (by simp)
    have ih' := ih (fun a ha => h a (by simp [ha]))
    rw [List.cons_append]
    unfold splitOnChar
    simp only [hc, Bool.false_eq_true, if_false, ih']
    cases y <;> rfl

theorem splitOnChar_cons_of_ne {sep c : Char} (hc : c ≠ sep) (t : Str) {h' : Str} {tl : List Str}
    (ht : splitOnChar sep t = h' :: tl) :
    splitOnChar sep (c :: t) = (c :: h') :: tl := by
  unfold splitOnChar
  simp [hc, ht]

theorem trimStr_nil : trimStr [] = [] := rfl

theorem trimStr_cons_ws {c : Char} (h : wsChar c = true) (x : Str) :
    trimStr (c :: x) = trimStr x := by
  unfold trimStr
  rw [List.dropWhile_cons]
  simp [h]

theorem dropWhile_length_le (p : Char → Bool) (l : Str) :
    (l.dropWhile p).length ≤ l.length := by
  induction l with
  | nil => simp
  | cons a y ih =>
    rw [List.dropWhile_cons]
    split_ifs
    · exact Nat.le_trans ih (by simp)
    · simp

theorem dropWhile_head_false {a : Char} {y : Str}
    (h : (a :: y).dropWhile wsChar = a :: y) : wsChar a = false := by
  by_cases hw : wsChar a = true
  · rw [List.dropWhile_cons] at h
    simp [hw] at h
    have hle := dropWhile_length_le wsChar y
    have hlen := congrArg List.length h
    simp at hlen
    omega
  · simpa using hw

theorem trimStr_of_edges {x : Str}
    (h1 : x.dropWhile wsChar = x) (h2 : x.reverse.dropWhile wsChar = x.reverse) :
    trimStr x = x := by
  unfold trimStr
  rw [h1, h2, List.reverse_reverse]

theorem dropWhile_append_of_head {a : Char} {x' y : Str} (ha : wsChar a = false) :
    ((a :: x') ++ y).dropWhile wsChar = (a :: x') ++ y := by
  rw [List.cons_append, List.dropWhile_cons]
  simp [ha]

theorem splitOnChar_seg {x : Str} (r : Str) (h : ∀ a ∈ x, a ≠ '"') :
    splitOnChar '"' (seg x r) = x :: splitOnChar '"' r :=
  splitOnChar_append r h

theorem encRest_split : ∀ (cs : List Cookie) (c : Cookie), WfJsonCookie c →
    (∀ c' ∈ cs, WfJsonCookie c') →
    splitOnChar '"' (encRest c cs) = encPieces c cs := by
  intro cs
  induction cs with
  | nil =>
    intro c hc _
    obtain ⟨h1, h2, h3, h4⟩ := hc
    unfold encRest
    rw [splitOnChar_seg _ (by decide), splitOnChar_seg _ (by decide),
        splitOnChar_seg _ h1, splitOnChar_seg _ (by decide),
        splitOnChar_seg _ (by decide), splitOnChar_seg _ (by decide),
        splitOnChar_seg _ h2, splitOnChar_seg _ (by decide),
        splitOnChar_seg _ (by decide), splitOnChar_seg _ (by decide),
        splitOnChar_seg _ h3, splitOnChar_seg _ (by decide),
        splitOnChar_seg _ (by decide), splitOnChar_seg _ (by decide),
        splitOnChar_seg _ h4, splitOnChar_of_not_mem (by decide)]
    rfl
  | cons c' cs' ih =>
    intro c hc hall
    obtain ⟨h1, h2, h3, h4⟩ := hc
    unfold encRest
    rw [splitOnChar_seg _ (by decide), splitOnChar_seg _ (by decide),
        splitOnChar_seg _ h1, splitOnChar_seg _ (by decide),
        splitOnChar_seg _ (by decide), splitOnChar_seg _ (by decide),
        splitOnChar_seg _ h2, splitOnChar_seg _ (by decide),
        splitOnChar_seg _ (by decide), splitOnChar_seg _ (by decide),
        splitOnChar_seg _ h3, splitOnChar_seg _ (by decide),
        splitOnChar_seg _ (by decide), splitOnChar_seg _ (by decide),
        splitOnChar_seg _ h4, splitOnChar_seg _ (by decide),
        ih c' (hall c' (by simp)) (fun x hx => hall x (by simp [hx]))]
    rfl

theorem parseQuoted_encPieces : ∀ (cs : List Cookie) (c : Cookie),
    parseQuoted (encPieces c cs) = some (c :: cs) := by
  intro cs
  induction cs with
  | nil => intro c; rfl
  | cons c' cs' ih =>
    intro c
    show parseQuoted (encPieces c (c' :: cs')) = some (c :: c' :: cs')
    unfold encPieces parseQuoted
    try dsimp only []
    cases hE : encPieces c' cs' with
    | nil => exact absurd hE (by unfold encPieces; simp)
    | cons p ps =>
      have hi : parseQuoted (p :: ps) = some (c' :: cs') := by
        rw [← hE]
        exact ih c'
      rw [hi]
      rfl

theorem encRest_ends : ∀ (cs : List Cookie) (c : Cookie), ∃ y, encRest c cs = y ++ [']'] := by
  intro cs
  induction cs with
  | nil =>
    intro c
    refine ⟨seg (str "name") <| seg (str ":") <| seg c.name <| seg (str ",") <|
      seg (str "value") <| seg (str ":") <| seg c.value <| seg (str ",") <|
      seg (str "domain") <| seg (str ":") <| seg c.domain <| seg (str ",") <|
      seg (str "path") <| seg (str ":") <| seg c.path (str "\x7d"), ?_⟩
    simp [encRest, seg, str]
  | cons c' cs' ih =>
    intro c
    obtain ⟨y, hy⟩ := ih c'
    refine ⟨seg (str "name") <| seg (str ":") <| seg c.name <| seg (str ",") <|
      seg (str "value") <| seg (str ":") <| seg c.value <| seg (str ",") <|
      seg (str "domain") <| seg (str ":") <| seg c.domain <| seg (str ",") <|
      seg (str "path") <| seg (str ":") <| seg c.path (str "\x7d,\x7b" ++ '"' :: y), ?_⟩
    show encRest c (c' :: cs') = _
    unfold encRest
    dsimp only []
    rw [hy]
    simp [seg, str]

theorem jsonParseCookies_encode (l : List Cookie) (h : ∀ c ∈ l, WfJsonCookie c) :
    jsonParseCookies (encodeCookies l) = some l := by
  cases l with
  | nil => rfl
  | cons c cs =>
    unfold jsonParseCookies encodeCookies
    rw [splitOnChar_seg _ (by decide),
        encRest_split cs c (h c (by simp)) (fun x hx => h x (by simp [hx]))]
    have hp := parseQuoted_encPieces cs c
    cases hE : encPieces c cs with
    | nil => exact absurd hE (by unfold encPieces; simp)
    | cons p ps =>
      rw [hE] at hp
      dsimp only []
      rw [show (str "[\x7b" == str "[\x7b") = true from rfl]
      simp only [if_true]
      exact hp

theorem encodeCookies_trim (l : List Cookie) : trimStr (encodeCookies l) = encodeCookies l := by
  cases l with
  | nil => rfl
  | cons c cs =>
    obtain ⟨y, hy⟩ := encRest_ends cs c
    apply trimStr_of_edges
    · unfold encodeCookies seg
      rfl
    · unfold encodeCookies seg
      try dsimp only []
      rw [hy]
      rw [show (str "[\x7b" ++ '"' :: (y ++ [']'])) = (str "[\x7b" ++ '"' :: y) ++ [']'] by simp]
      rw [List.reverse_append]
      rfl

theorem parseCookieString_encode (l : List Cookie) (d : Str) (h : ∀ c ∈ l, WfJsonCookie c) :
    parseCookieString (encodeCookies l) d = l := by
  unfold parseCookieString
  rw [encodeCookies_trim l]
  try dsimp only []
  cases l with
  | nil => rfl
  | cons c cs =>
    have hh : ((encodeCookies (c :: cs)).head? == some '[') = true := by
      unfold encodeCookies seg
      rfl
    rw [hh]
    simp only [if_true]
    rw [jsonParseCookies_encode (c :: cs) h]

theorem dropWhile_eq_self_of_none {x : Str} (h : ∀ a ∈ x, wsChar a = false) :
    x.dropWhile wsChar = x := by
  induction x with
  | nil => rfl
  | cons a y ih =>
    rw [List.dropWhile_cons]
    simp [h a (by simp), ih (fun b hb => h b (by simp [hb]))]

theorem trimStr_eq_self_of_none {x : Str} (h : ∀ a ∈ x, wsChar a = false) :
    trimStr x = x := by
  apply trimStr_of_edges
  · exact dropWhile_eq_self_of_none h
  · exact dropWhile_eq_self_of_none (fun a ha => h a (by simpa using ha))

theorem pairStr_no_ws {c : Cookie} (h : WfFlatCookie c) :
    ∀ a ∈ pairStr c, wsChar a = false := by
  intro a ha
  unfold pairStr at ha
  rcases List.mem_append.mp ha with hn | hv
  · exact (h.2.1 a hn).2.2.2
  · rcases List.mem_cons.mp hv with he | hv'
    · subst he; rfl
    · exact (h.2.2 a hv').2.2

theorem pairStr_no_semi {c : Cookie} (h : WfFlatCookie c) :
    ∀ a ∈ pairStr c, a ≠ ';' := by
  intro a ha
  unfold pairStr at ha
  rcases List.mem_append.mp ha with hn | hv
  · exact (h.2.1 a hn).1
  · rcases List.mem_cons.mp hv with he | hv'
    · subst he; decide
    · exact (h.2.2 a hv').1

theorem pairStr_no_quote {c : Cookie} (h : WfFlatCookie c) :
    ∀ a ∈ pairStr c, a ≠ '"' := by
  intro a ha
  unfold pairStr at ha
  rcases List.mem_append.mp ha with hn | hv
  · exact (h.2.1 a hn).2.2.1
  · rcases List.mem_cons.mp hv with he | hv'
    · subst he; decide
    · exact (h.2.2 a hv').2.1

theorem takeLen : ∀ (n v : Str), (n ++ v).take n.length = n := by
  intro n v
  induction n with
  | nil => rfl
  | cons a y ih => simp [List.take, ih]

theorem dropLen : ∀ (n v : Str), (n ++ v).drop n.length = v := by
  intro n v
  induction n with
  | nil => rfl
  | cons a y ih => simp [List.drop, ih]

theorem findEq_append {n : Str} (v : Str) (h : ∀ a ∈ n, a ≠ '=') :
    findEq (n ++ '=' :: v) = n.length := by
  induction n with
  | nil => rfl
  | cons a y ih =>
    have ha : (a == '=') = false := by
      simp only [beq_eq_false_iff_ne, ne_eq]
      exact h a (by simp)
    rw [List.cons_append]
    unfold findEq
    rw [ha]
    simp [ih (fun b hb => h b (by simp [hb]))]

theorem parsePair_pair {c : Cookie} (d : Str) (h : WfFlatCookie c) :
    parsePair d (pairStr c) = ⟨c.name, c.value, d, str "/"⟩ := by
  unfold parsePair pairStr
  rw [findEq_append c.value (fun a ha => (h.2.1 a ha).2.1)]
  try dsimp only []
  rw [takeLen c.name ('=' :: c.value)]
  rw [show c.name.length + 1 = (c.name ++ ['=']).length by simp]
  rw [show c.name ++ '=' :: c.value = (c.name ++ ['=']) ++ c.value by simp]
  rw [dropLen (c.name ++ ['=']) c.value]
  rw [trimStr_eq_self_of_none (fun a ha => (h.2.1 a ha).2.2.2)]
  rw [trimStr_eq_self_of_none (fun a ha => (h.2.2 a ha).2.2)]

theorem splitJoin : ∀ (cs : List Cookie) (c : Cookie), (∀ x ∈ c :: cs, WfFlatCookie x) →
    splitOnChar ';' (cookieJoinFlat (c :: cs)) =
      pairStr c :: cs.map (fun c' => ' ' :: pairStr c') := by
  intro cs
  induction cs with
  | nil =>
    intro c h
    show splitOnChar ';' (pairStr c) = [pairStr c]
    exact splitOnChar_of_not_mem (pairStr_no_semi (h c (by simp)))
  | cons c' cs' ih =>
    intro c h
    have hc := h c (by simp)
    have hrest : ∀ x ∈ c' :: cs', WfFlatCookie x := fun x hx => h x (by simp [hx])
    have ih' := ih c' hrest
    show splitOnChar ';' (pairStr c ++ str "; " ++ cookieJoinFlat (c' :: cs')) = _
    rw [show pairStr c ++ str "; " ++ cookieJoinFlat (c' :: cs') =
      pairStr c ++ ';' :: (' ' :: cookieJoinFlat (c' :: cs')) by simp [str]]
    rw [splitOnChar_append _ (pairStr_no_semi hc)]
    rw [splitOnChar_cons_of_ne (by decide) _ ih']
    simp

theorem pair_contains_eq (c : Cookie) : (pairStr c).contains '=' = true := by
  unfold pairStr
  induction c.name with
  | nil => simp [List.contains_cons]
  | cons a y ih => simpa [List.contains_cons] using Or.inr ih

theorem flatParse_join (d : Str) : ∀ (l : List Cookie), (∀ x ∈ l, WfFlatCookie x) →
    flatParse d (cookieJoinFlat l) =
      l.map (fun c => ⟨c.name, c.value, d, str "/"⟩) := by
  intro l h
  cases l with
  | nil => rfl
  | cons c cs =>
    unfold flatParse
    rw [splitJoin cs c h]
    rw [List.map_cons]
    rw [trimStr_eq_self_of_none (pairStr_no_ws (h c (by simp)))]
    rw [show (cs.map fun c' => ' ' :: pairStr c').map trimStr = cs.map (fun c' => pairStr c') by
      rw [List.map_map]
      apply List.map_congr_left
      intro x hx
      show trimStr (' ' :: pairStr x) = pairStr x
      rw [trimStr_cons_ws (by rfl), trimStr_eq_self_of_none (pairStr_no_ws (h x (by simp [hx])))]]
    rw [List.filter_cons_of_pos (by simpa using pair_contains_eq c)]
    rw [show (cs.map fun c' => pairStr c').filter (fun p => p.contains '=') =
        cs.map (fun c' => pairStr c') by
      rw [List.filter_eq_self]
      intro a ha
      obtain ⟨x, hx, hax⟩ := List.mem_map.mp ha
      subst hax
      simpa using pair_contains_eq x]
    rw [List.map_cons, List.map_map]
    rw [parsePair_pair d (h c (by simp))]
    congr 1
    apply List.map_congr_left
    intro x hx
    show parsePair d (pairStr x) = _
    rw [parsePair_pair d (h x (by simp [hx]))]

theorem join_no_quote : ∀ (l : List Cookie), (∀ x ∈ l, WfFlatCookie x) →
    ∀ a ∈ cookieJoinFlat l, a ≠ '"' := by
  intro l
  induction l with
  | nil => intro h a ha; simp [cookieJoinFlat] at ha
  | cons c cs ih =>
    intro h a ha
    cases cs with
    | nil => exact pairStr_no_quote (h c (by simp)) a ha
    | cons c' cs' =>
      have ha' : a ∈ pairStr c ++ str "; " ++ cookieJoinFlat (c' :: cs') := ha
      rw [List.append_assoc, List.mem_append] at ha'
      rcases ha' with h1 | h2
      · exact pairStr_no_quote (h c (by simp)) a h1
      · rw [List.mem_append] at h2
        rcases h2 with h3 | h4
        · simp [str] at h3
          rcases h3 with rfl | rfl <;> decide
        · exact ih (fun x hx => h x (by simp [hx])) a h4

theorem eq_mem_join (c : Cookie) (cs : List Cookie) :
    '=' ∈ cookieJoinFlat (c :: cs) := by
  cases cs <;> simp [cookieJoinFlat, pairStr]

theorem join_ne_brackets (c : Cookie) (cs : List Cookie) :
    (cookieJoinFlat (c :: cs) == str "[]") = false := by
  by_cases hb : (cookieJoinFlat (c :: cs) == str "[]") = true
  · have he := eq_of_beq hb
    have hm := eq_mem_join c cs
    rw [he] at hm
    simp [str] at hm
  · simpa using hb

theorem jsonParse_join_none (c : Cookie) (cs : List Cookie)
    (h : ∀ x ∈ c :: cs, WfFlatCookie x) :
    jsonParseCookies (cookieJoinFlat (c :: cs)) = none := by
  unfold jsonParseCookies
  rw [splitOnChar_of_not_mem (join_no_quote _ h)]
  simp [join_ne_brackets c cs]

theorem join_dropWhile (cs : List Cookie) (c : Cookie)
    (h : ∀ x ∈ c :: cs, WfFlatCookie x) :
    (cookieJoinFlat (c :: cs)).dropWhile wsChar = cookieJoinFlat (c :: cs) := by
  have hc := h c (by simp)
  obtain ⟨n0, nt, hn⟩ : ∃ n0 nt, c.name = n0 :: nt := by
    cases hcn : c.name with
    | nil => exact absurd hcn hc.1
    | cons a b => exact ⟨a, b, rfl⟩
  have hw : wsChar n0 = false := (hc.2.1 n0 (by rw [hn]; simp)).2.2.2
  obtain ⟨z, hz⟩ : ∃ z, cookieJoinFlat (c :: cs) = n0 :: z := by
    cases cs with
    | nil => exact ⟨_, by show pairStr c = _; unfold pairStr; rw [hn]; rfl⟩
    | cons c' cs' =>
      refine ⟨nt ++ '=' :: c.value ++ str "; " ++ cookieJoinFlat (c' :: cs'), ?_⟩
      show pairStr c ++ str "; " ++ cookieJoinFlat (c' :: cs') = _
      unfold pairStr; rw [hn]; simp
  rw [hz, List.dropWhile_cons]
  simp [hw]

theorem join_ends : ∀ (cs : List Cookie) (c : Cookie), (∀ x ∈ c :: cs, WfFlatCookie x) →
    ∃ y a, cookieJoinFlat (c :: cs) = y ++ [a] ∧ wsChar a = false := by
  intro cs
  induction cs with
  | nil =>
    intro c h
    have hc := h c (by simp)
    have hne : pairStr c ≠ [] := by
      unfold pairStr
      cases hcn : c.name with
      | nil => exact absurd hcn hc.1
      | cons a b => simp
    obtain ⟨r, hr⟩ : ∃ r, (pairStr c).reverse = r := ⟨_, rfl⟩
    cases hrr : (pairStr c).reverse with
    | nil => exact absurd (by simpa using congrArg List.reverse hrr) hne
    | cons a y =>
      refine ⟨y.reverse, a, ?_, ?_⟩
      · show pairStr c = _
        have := congrArg List.reverse hrr
        simpa using this
      · have ha : a ∈ pairStr c := by
          rw [← List.mem_reverse, hrr]; simp
        exact pairStr_no_ws hc a ha
  | cons c' cs' ih =>
    intro c h
    obtain ⟨y, a, hy, ha⟩ := ih c' (fun x hx => h x (by simp [hx]))
    refine ⟨pairStr c ++ str "; " ++ y, a, ?_, ha⟩
    show pairStr c ++ str "; " ++ cookieJoinFlat (c' :: cs') = _
    rw [hy]
    simp

theorem join_trim (c : Cookie) (cs : List Cookie)
    (h : ∀ x ∈ c :: cs, WfFlatCookie x) :
    trimStr (cookieJoinFlat (c :: cs)) = cookieJoinFlat (c :: cs) := by
  apply trimStr_of_edges (join_dropWhile cs c h)
  obtain ⟨y, a, hy, ha⟩ := join_ends cs c h
  rw [hy]
  simp [List.dropWhile_cons, ha]

theorem parseCookieString_join (l : List Cookie) (d : Str)
    (h : ∀ x ∈ l, WfFlatCookie x) :
    parseCookieString (cookieJoinFlat l) d =
      l.map (fun c => ⟨c.name, c.value, d, str "/"⟩) := by
  cases l with
  | nil => rfl
  | cons c cs =>
    unfold parseCookieString
    rw [join_trim c cs h]
    by_cases hh : ((cookieJoinFlat (c :: cs)).head? == some '[') = true
    · simp only [hh, if_true, jsonParse_join_none c cs h]
      exact flatParse_join d _ h
    · simp only [Bool.not_eq_true] at hh
      simp only [hh, Bool.false_eq_true, if_false]
      exact flatParse_join d _ h

/-!  ## Whole-run characterizations -/

theorem runNaver_attempts (env : NaverEnv) (cookies title content : Str)
    (creds : Option (Str × Str)) :
    (runNaver env cookies title content creds).2.loginAttempts ≤ 1 := by
  unfold runNaver
  cases h1 : naverLaunch env cookies with
  | inl out =>
    dsimp only []
    have h := (naverLaunch_inl h1).2.2.1; omega
  | inr t =>
    dsimp only []
    have hl0 := (naverLaunch_inr h1).1
    cases h2 : naverSession env creds t with
    | inl out =>
      dsimp only []
      have h := (naverSession_inl h2).2.2.1; omega
    | inr t' =>
      dsimp only []
      have hle := (naverSession_inr h2).1
      cases h3 : naverEditor env t' with
      | inl out =>
        dsimp only []
        have h := (naverEditor_inl h3).2.2.1; omega
      | inr t'' =>
        dsimp only []
        have ht := naverEditor_inr h3
        have hs := (naverSubmitFinish_spec env t'').1
        subst ht
        omega

theorem runTistory_attempts (env : TistoryEnv)
    (cookies blogUrl username password title content : Str) :
    (runTistory env cookies blogUrl username password title content).2.loginAttempts ≤ 1 := by
  unfold runTistory
  cases h1 : tistoryLaunch env cookies blogUrl with
  | inl out =>
    dsimp only []
    have h := (tistoryLaunch_inl h1).2.2.1; omega
  | inr p =>
    dsimp only []
    obtain ⟨bn, a1, t⟩ := p
    have hl0 := (tistoryLaunch_inr h1).1
    cases h2 : tistorySession env blogUrl bn username password a1 cookies t with
    | inl out =>
      dsimp only []
      have h := (tistorySession_inl h2).2.2.1; omega
    | inr q =>
      dsimp only []
      obtain ⟨u, a2, cs, t'⟩ := q
      have hle := (tistorySession_inr h2).1
      cases h3 : tistoryArrival env blogUrl u t' with
      | inl out =>
        dsimp only []
        have h := (tistoryArrival_inl h3).2.2.1; omega
      | inr t'' =>
        dsimp only []
        have ht := tistoryArrival_inr h3
        have hs := (tistoryEntryFinish_spec env bn cs t'').1
        subst ht
        omega

theorem runNaver_cases (env : NaverEnv) (cookies title content : Str)
    (creds : Option (Str × Str)) :
    ((runNaver env cookies title content creds).2.finalCheck = none ∧
     (runNaver env cookies title content creds).1.success = false ∧
     (runNaver env cookies title content creds).1.newCookies = none) ∨
    (∃ u pid, (runNaver env cookies title content creds).2.finalCheck = some (u, pid) ∧
      (runNaver env cookies title content creds).1.success =
        ((!hasSub u (str "Write") && !hasSub u (str "Redirect")) || !pid.isEmpty) ∧
      (runNaver env cookies title content creds).1.newCookies =
        env.finalCookies.map encodeCookies) := by
  unfold runNaver
  cases h1 : naverLaunch env cookies with
  | inl out =>
    dsimp only []
    obtain ⟨hs, hc, -, hf, -⟩ := naverLaunch_inl h1
    exact Or.inl ⟨hf, hs, hc⟩
  | inr t =>
    dsimp only []
    have hfc0 := (naverLaunch_inr h1).2.1
    cases h2 : naverSession env creds t with
    | inl out =>
      dsimp only []
      obtain ⟨hs, hc, -, hf, -, -⟩ := naverSession_inl h2
      exact Or.inl ⟨hf.trans hfc0, hs, hc⟩
    | inr t' =>
      dsimp only []
      have hfc1 := (naverSession_inr h2).2.1
      cases h3 : naverEditor env t' with
      | inl out =>
        dsimp only []
        obtain ⟨hs, hc, -, hf, -, -⟩ := naverEditor_inl h3
        exact Or.inl ⟨(hf.trans hfc1).trans hfc0, hs, hc⟩
      | inr t'' =>
        dsimp only []
        have ht := naverEditor_inr h3
        subst ht
        rcases (naverSubmitFinish_spec env t'').2.2.2 with ⟨hf, hs, hc⟩ | ⟨u, pid, hf, hs, hc⟩
        · exact Or.inl ⟨(hf.trans hfc1).trans hfc0, hs, hc⟩
        · exact Or.inr ⟨u, pid, hf, hs, hc⟩

theorem runTistory_cases (env : TistoryEnv)
    (cookies blogUrl username password title content : Str) :
    ((runTistory env cookies blogUrl username password title content).2.finalCheck = none ∧
     (runTistory env cookies blogUrl username password title content).1.success = false ∧
     (runTistory env cookies blogUrl username password title content).1.newCookies = none) ∨
    ((runTistory env cookies blogUrl username password title content).2.finalCheck = none ∧
     (runTistory env cookies blogUrl username password title content).1.success = true) ∨
    (∃ u pid,
      (runTistory env cookies blogUrl username password title content).2.finalCheck =
        some (u, pid) ∧
      (runTistory env cookies blogUrl username password title content).1.success = true ∧
      (runTistory env cookies blogUrl username password title content).1.newCookies =
        env.finalCookies.map encodeCookies) := by
  unfold runTistory
  cases h1 : tistoryLaunch env cookies blogUrl with
  | inl out =>
    dsimp only []
    obtain ⟨hs, hc, -, hf, -⟩ := tistoryLaunch_inl h1
    exact Or.inl ⟨hf, hs, hc⟩
  | inr p =>
    dsimp only []
    obtain ⟨bn, a1, t⟩ := p
    have hfc0 := (tistoryLaunch_inr h1).2.1
    cases h2 : tistorySession env blogUrl bn username password a1 cookies t with
    | inl out =>
      dsimp only []
      obtain ⟨hs, hc, -, hf, -, -⟩ := tistorySession_inl h2
      exact Or.inl ⟨hf.trans hfc0, hs, hc⟩
    | inr q =>
      dsimp only []
      obtain ⟨u, a2, cs, t'⟩ := q
      have hfc1 := (tistorySession_inr h2).2.1
      cases h3 : tistoryArrival env blogUrl u t' with
      | inl out =>
        dsimp only []
        obtain ⟨hs, hc, -, hf, -, -⟩ := tistoryArrival_inl h3
        exact Or.inl ⟨(hf.trans hfc1).trans hfc0, hs, hc⟩
      | inr t'' =>
        dsimp only []
        have ht := tistoryArrival_inr h3
        subst ht
        rcases (tistoryEntryFinish_spec env bn cs t'').2.2 with
          ⟨hf, hs, hc, -⟩ | ⟨hf, hs, -⟩ | ⟨w, pid, hf, hs, hc⟩
        · exact Or.inl ⟨(hf.trans hfc1).trans hfc0, hs, hc⟩
        · exact Or.inr (Or.inl ⟨(hf.trans hfc1).trans hfc0, hs⟩)
        · exact Or.inr (Or.inr ⟨w, pid, hf, hs, hc⟩)

theorem runNaver_calls (env : NaverEnv) (cookies title content : Str)
    (creds : Option (Str × Str)) (h1 : env.launchErr = none) (h2 : env.ctxErr = none) :
    (runNaver env cookies title content creds).2.addCookiesCalls.head? =
      some (parseCookieString cookies (str ".naver.com")) := by
  unfold runNaver
  cases hL : naverLaunch env cookies with
  | inl out =>
    dsimp only []
    rw [naverLaunch_inl_calls h1 h2 hL]; rfl
  | inr t =>
    dsimp only []
    have hc0 := (naverLaunch_inr hL).2.2.2
    cases hS : naverSession env creds t with
    | inl out =>
      dsimp only []
      rw [(naverSession_inl hS).2.2.2.2.2, hc0]; rfl
    | inr t' =>
      dsimp only []
      have hc1 := (naverSession_inr hS).2.2.2
      cases hE : naverEditor env t' with
      | inl out =>
        dsimp only []
        rw [(naverEditor_inl hE).2.2.2.2.2, hc1, hc0]; rfl
      | inr t'' =>
        dsimp only []
        have ht := naverEditor_inr hE
        subst ht
        rw [(naverSubmitFinish_spec env t'').2.1, hc1, hc0]; rfl

theorem runTistory_calls (env : TistoryEnv)
    (cookies blogUrl username password title content : Str)
    (h1 : env.launchErr = none) (h2 : env.ctxErr = none) :
    (runTistory env cookies blogUrl username password title content).2.addCookiesCalls.head? =
      some (parseCookieString cookies (str ".tistory.com")) := by
  unfold runTistory
  cases hL : tistoryLaunch env cookies blogUrl with
  | inl out =>
    dsimp only []
    rw [tistoryLaunch_inl_calls h1 h2 hL]; rfl
  | inr p =>
    dsimp only []
    obtain ⟨bn, a1, t⟩ := p
    have hc0 := (tistoryLaunch_inr hL).2.2.2
    cases hS : tistorySession env blogUrl bn username password a1 cookies t with
    | inl out =>
      dsimp only []
      obtain ⟨ex, hex⟩ := (tistorySession_inl hS).2.2.2.2.2
      rw [hex, hc0]
      rfl
    | inr q =>
      dsimp only []
      obtain ⟨u, a2, cs, t'⟩ := q
      obtain ⟨ex, hex⟩ := (tistorySession_inr hS).2.2.2
      cases hA : tistoryArrival env blogUrl u t' with
      | inl out =>
        dsimp only []
        rw [(tistoryArrival_inl hA).2.2.2.2.2, hex, hc0]
        rfl
      | inr t'' =>
        dsimp only []
        have ht := tistoryArrival_inr hA
        subst ht
        rw [(tistoryEntryFinish_spec env bn cs t'').2.1, hex, hc0]
        rfl

theorem isEmpty_false_of_ne {l : Str} (h : l ≠ []) : l.isEmpty = false := by
  cases l with
  | nil => exact absurd rfl h
  | cons a as => rfl

theorem tistoryHost_ne_nil : ∀ {s r : Str}, tistoryHost s = some r → r ≠ [] := by
  intro s
  induction s with
  | nil => intro r h; simp [tistoryHost] at h
  | cons c cs ih =>
    intro r h
    unfold tistoryHost at h
    try dsimp only [] at h
    split at h
    · split_ifs at h with hg
      · injection h with h'
        subst h'
        intro hnil
        rw [hnil] at hg
        simp at hg
      · exact ih h
    · exact ih h

theorem pickLoop1_ne_nil (blogUrl : Str) :
    ∀ (links : List (Option Str)) (fm : Bool) (a : Str), a ≠ [] →
      (pickLoop1 blogUrl links fm a).2 ≠ [] := by
  intro links
  induction links with
  | nil => intro fm a ha; simpa [pickLoop1] using ha
  | cons l rest ih =>
    intro fm a ha
    cases l with
    | none => simpa [pickLoop1] using ih fm a ha
    | some href =>
      unfold pickLoop1
      cases hh : tistoryHost href with
      | none => exact ih fm a ha
      | some found =>
        dsimp only []
        split_ifs with hm hf
        · exact tistoryHost_ne_nil hh
        · exact ih fm found (tistoryHost_ne_nil hh)
        · exact ih fm a ha

theorem pickBlog1_ne_nil {blogUrl a0 : Str} (links : List (Option Str)) (ha : a0 ≠ []) :
    pickBlog1 blogUrl a0 links ≠ [] := by
  unfold pickBlog1
  try dsimp only []
  split_ifs with h1
  · cases hhd : links.head? with
    | none => simpa [hhd] using pickLoop1_ne_nil blogUrl links false a0 ha
    | some l =>
      cases l with
      | none => simpa [hhd] using pickLoop1_ne_nil blogUrl links false a0 ha
      | some href =>
        cases hh : tistoryHost href with
        | none => simpa [hhd, hh] using pickLoop1_ne_nil blogUrl links false a0 ha
        | some m => simp [hhd, hh]; exact tistoryHost_ne_nil hh
  · exact pickLoop1_ne_nil blogUrl links false a0 ha

theorem tistoryLaunch_reaches (env : TistoryEnv) (cookies blogUrl bn : Str)
    (h1 : env.launchErr = none) (h2 : env.ctxErr = none) (h3 : env.addCookiesErr = none)
    (hb : tistoryHost blogUrl = some bn) (h4 : env.goto1Err = none) (h5 : env.goto2Err = none) :
    ∃ a1, a1 ≠ [] ∧ tistoryLaunch env cookies blogUrl =
      Sum.inr (bn, a1,
        { browserOpens := 1, contextOpens := 1,
          addCookiesCalls := [parseCookieString cookies (str ".tistory.com")] }) := by
  have hbn : bn ≠ [] := tistoryHost_ne_nil hb
  unfold tistoryLaunch
  simp only [h1, h2, h3, h4, h5, hb, Option.getD_some, isEmpty_false_of_ne hbn]
  cases hA : env.accountLinks1 with
  | none =>
    refine ⟨bn, hbn, ?_⟩
    simp [isEmpty_false_of_ne hbn]
  | some links =>
    refine ⟨pickBlog1 blogUrl bn links, pickBlog1_ne_nil links hbn, ?_⟩
    simp [isEmpty_false_of_ne (pickBlog1_ne_nil links hbn)]

/-!  ## The claims -/

/-- C1: counterexample to every exit path closing both the context and the
browser: the Tistory session-expired early return closes only the context,
leaving the launched browser process open. -/
theorem claim1_tistory_browser_leak :
    c1Run.1.success = false ∧ c1Run.1.error = some msgSessionExpired ∧
    c1Run.2.browserOpens = 1 ∧ c1Run.2.browserCloses = 0 ∧
    c1Run.2.contextOpens = 1 ∧ c1Run.2.contextCloses = 1 := by decide

/-- C2: each publish run performs at most one re-login attempt, and a Naver
run still on a login surface after that one attempt fails with the
relogin-not-kept error rather than retrying. -/
theorem claim2_at_most_one_relogin :
    (∀ (env : NaverEnv) (cookies title content : Str) (creds : Option (Str × Str)),
       (runNaver env cookies title content creds).2.loginAttempts ≤ 1) ∧
    (∀ (env : TistoryEnv) (cookies blogUrl username password title content : Str),
       (runTistory env cookies blogUrl username password title content).2.loginAttempts ≤ 1) ∧
    (∀ (env : NaverEnv) (cookies title content : Str) (creds : Option (Str × Str)),
       env.launchErr = none → env.ctxErr = none → env.addCookiesErr = none →
       env.goto1Err = none →
       (hasSub env.url1 (str "nidlogin") || hasSub env.url1 (str "login")) = true →
       credsUsable creds = true → env.reloginOk = true → env.goto2Err = none →
       (hasSub env.url2 (str "nidlogin") || hasSub env.url2 (str "login")) = true →
       (runNaver env cookies title content creds).1.success = false ∧
       (runNaver env cookies title content creds).1.error = some msgReloginNotKept ∧
       (runNaver env cookies title content creds).2.loginAttempts = 1) := by
  refine ⟨runNaver_attempts, runTistory_attempts, ?_⟩
  intro env cookies title content creds h1 h2 h3 h4 h5 h6 h7 h8 h9
  simp [runNaver, naverLaunch, naverSession, h1, h2, h3, h4, h5, h6, h7, h8, h9]

/-- Witness for C2: a concrete Naver run whose re-login does not stick
makes exactly one login attempt and returns the relogin-not-kept error. -/
theorem claim2_witness :
    (runNaver c2Env (str "a=1") (str "t") (str "c") (some (str "user", str "pw"))).1.error =
      some msgReloginNotKept ∧
    (runNaver c2Env (str "a=1") (str "t") (str "c") (some (str "user", str "pw"))).2.loginAttempts = 1 := by
  have h := claim2_at_most_one_relogin.2.2 c2Env (str "a=1") (str "t") (str "c")
    (some (str "user", str "pw")) rfl rfl rfl rfl (by decide) (by decide) rfl rfl (by decide)
  exact ⟨h.2.1, h.2.2⟩

/-- C3: counterexample to garbage cookie strings being rejected: a string
without an equals sign parses to the empty jar, yet the run injects that
empty jar and proceeds to report success. -/
theorem claim3_counterexample :
    parseCookieString (str "garbage") (str ".naver.com") = [] ∧
    c3Run.2.addCookiesCalls = [[]] ∧ c3Run.1.success = true := by decide

/-- C3 (corrected): whenever launch and context creation succeed, the first
addCookies call receives exactly `parseCookieString cookies domain`, with no
emptiness or validity check in between. -/
theorem claim3_no_empty_jar_rejection :
    (∀ (env : NaverEnv) (cookies title content : Str) (creds : Option (Str × Str)),
       env.launchErr = none → env.ctxErr = none →
       (runNaver env cookies title content creds).2.addCookiesCalls.head? =
         some (parseCookieString cookies (str ".naver.com"))) ∧
    (∀ (env : TistoryEnv) (cookies blogUrl username password title content : Str),
       env.launchErr = none → env.ctxErr = none →
       (runTistory env cookies blogUrl username password title content).2.addCookiesCalls.head? =
         some (parseCookieString cookies (str ".tistory.com"))) :=
  ⟨fun env cookies title content creds h1 h2 =>
     runNaver_calls env cookies title content creds h1 h2,
   fun env cookies blogUrl username password title content h1 h2 =>
     runTistory_calls env cookies blogUrl username password title content h1 h2⟩

/-- Witness for C3: the garbage-cookie Naver run injects exactly the parse
of the garbage string. -/
theorem claim3_witness :
    (runNaver c3Env (str "garbage") (str "제목") (str "본문") none).2.addCookiesCalls.head? =
      some (parseCookieString (str "garbage") (str ".naver.com")) :=
  claim3_no_empty_jar_rejection.1 c3Env (str "garbage") (str "제목") (str "본문") none rfl rfl

/-- C4: a Naver run whose final URL read fails falls back to the post list
of the hardcoded blog id re-rank and reports a post URL under that blog,
not under the publishing tenant. -/
theorem claim4_hardcoded_rerank_identity :
    c4Run.1.success = true ∧ c4Run.1.postId = some (str "999") ∧
    c4Run.1.postUrl = some (str "https://blog.naver.com/re-rank/999") := by decide

/-- C5: counterexample — a Tistory run whose final location still matches
the authoring surface and yields no post id nevertheless reports success. -/
theorem claim5_counterexample :
    c5Run.1.success = true ∧
    c5Run.2.finalCheck =
      some (str "https://myblog.tistory.com/manage/newpost/?type=post", []) ∧
    hasSub (str "https://myblog.tistory.com/manage/newpost/?type=post")
      (str "/manage/newpost") = true := by decide

/-- C5 (corrected): at final classification Naver derives success from the
final URL and the extracted post id, so unverified Naver outcomes report
failure, while Tistory reports success whenever classification is reached. -/
theorem claim5_unverified_outcome :
    (∀ (env : NaverEnv) (cookies title content : Str) (creds : Option (Str × Str)) (u pid : Str),
       (runNaver env cookies title content creds).2.finalCheck = some (u, pid) →
       (runNaver env cookies title content creds).1.success =
         ((!hasSub u (str "Write") && !hasSub u (str "Redirect")) || !pid.isEmpty)) ∧
    (∀ (env : TistoryEnv) (cookies blogUrl username password title content u pid : Str),
       (runTistory env cookies blogUrl username password title content).2.finalCheck =
         some (u, pid) →
       (runTistory env cookies blogUrl username password title content).1.success = true) := by
  constructor
  · intro env cookies title content creds u pid hfc
    rcases runNaver_cases env cookies title content creds with ⟨hn, -, -⟩ | ⟨u', pid', hf, hs, -⟩
    · rw [hfc] at hn; exact Option.noConfusion hn
    · rw [hfc] at hf
      injection hf with h'
      rw [Prod.mk.injEq] at h'
      rw [hs, h'.1, h'.2]
  · intro env cookies blogUrl username password title content u pid hfc
    rcases runTistory_cases env cookies blogUrl username password title content with
      ⟨hn, -, -⟩ | ⟨hn, -⟩ | ⟨u', pid', hf, hs, -⟩
    · rw [hfc] at hn; exact Option.noConfusion hn
    · rw [hfc] at hn; exact Option.noConfusion hn
    · exact hs

/-- Witness for C5: the unverified Tistory run reaches classification and
reports success. -/
theorem claim5_witness :
    c5Run.2.finalCheck =
      some (str "https://myblog.tistory.com/manage/newpost/?type=post", ([] : Str)) ∧
    c5Run.1.success = true :=
  ⟨by decide,
   claim5_unverified_outcome.2 c5Env (str "TSSESSION=abc")
     (str "https://myblog.tistory.com") (str "user") (str "pw") (str "제목") (str "본문")
     (str "https://myblog.tistory.com/manage/newpost/?type=post") [] (by decide)⟩

/-- C6: counterexample — a run failing before final classification returns
no refreshed cookies even though the context still holds live cookies. -/
theorem claim6_counterexample :
    c6Run.1.success = false ∧ c6Run.1.newCookies = none ∧
    c6Env.finalCookies =
      some [⟨str "NID_AUT", str "rotated", str ".naver.com", str "/"⟩] := by decide

/-- C6 (corrected): refreshed cookies are returned exactly by the runs that
reach final classification; classified early failures return none. -/
theorem claim6_refreshed_cookies :
    (∀ (env : NaverEnv) (cookies title content : Str) (creds : Option (Str × Str)),
       (runNaver env cookies title content creds).2.finalCheck ≠ none →
       (runNaver env cookies title content creds).1.newCookies =
         env.finalCookies.map encodeCookies) ∧
    (∀ (env : NaverEnv) (cookies title content : Str) (creds : Option (Str × Str)),
       (runNaver env cookies title content creds).2.finalCheck = none →
       (runNaver env cookies title content creds).1.newCookies = none) ∧
    (∀ (env : TistoryEnv) (cookies blogUrl username password title content : Str),
       (runTistory env cookies blogUrl username password title content).2.finalCheck ≠ none →
       (runTistory env cookies blogUrl username password title content).1.newCookies =
         env.finalCookies.map encodeCookies) ∧
    (∀ (env : TistoryEnv) (cookies blogUrl username password title content : Str),
       (runTistory env cookies blogUrl username password title content).2.finalCheck = none →
       (runTistory env cookies blogUrl username password title content).1.success = false →
       (runTistory env cookies blogUrl username password title content).1.newCookies = none) := by
  refine ⟨?_, ?_, ?_, ?_⟩
  · intro env cookies title content creds hne
    rcases runNaver_cases env cookies title content creds with ⟨hn, -, -⟩ | ⟨u, pid, hf, -, hc⟩
    · exact absurd hn hne
    · exact hc
  · intro env cookies title content creds hn
    rcases runNaver_cases env cookies title content creds with ⟨-, -, hc⟩ | ⟨u, pid, hf, -, -⟩
    · exact hc
    · rw [hn] at hf; exact Option.noConfusion hf
  · intro env cookies blogUrl username password title content hne
    rcases runTistory_cases env cookies blogUrl username password title content with
      ⟨hn, -, -⟩ | ⟨hn, -⟩ | ⟨u, pid, hf, -, hc⟩
    · exact absurd hn hne
    · exact absurd hn hne
    · exact hc
  · intro env cookies blogUrl username password title content hn hs
    rcases runTistory_cases env cookies blogUrl username password title content with
      ⟨-, -, hc⟩ | ⟨-, hs'⟩ | ⟨u, pid, hf, -, -⟩
    · exact hc
    · rw [hs] at hs'; exact Bool.noConfusion hs'
    · rw [hn] at hf; exact Option.noConfusion hf

/-- Witness for C6: the expired-session Naver run returns no refreshed
cookies. -/
theorem claim6_witness :
    (runNaver c6Env (str "NID_AUT=old") (str "제목") (str "본문") none).1.newCookies = none :=
  claim6_refreshed_cookies.2.1 c6Env (str "NID_AUT=old") (str "제목") (str "본문") none
    (by decide)

/-- C7: with an expired session and unusable credentials, both publishers
fail with the session-expired error without attempting a login. -/
theorem claim7_expired_no_credentials :
    (∀ (env : NaverEnv) (cookies title content : Str) (creds : Option (Str × Str)),
       env.launchErr = none → env.ctxErr = none → env.addCookiesErr = none →
       env.goto1Err = none →
       (hasSub env.url1 (str "nidlogin") || hasSub env.url1 (str "login")) = true →
       credsUsable creds = false →
       (runNaver env cookies title content creds).1.success = false ∧
       (runNaver env cookies title content creds).1.error = some msgSessionExpired ∧
       (runNaver env cookies title content creds).2.loginAttempts = 0) ∧
    (∀ (env : TistoryEnv) (cookies blogUrl username password title content bn : Str),
       env.launchErr = none → env.ctxErr = none → env.addCookiesErr = none →
       tistoryHost blogUrl = some bn → env.goto1Err = none → env.goto2Err = none →
       (hasSub env.url2 (str "auth/login") || hasSub env.url2 (str "kakao") ||
         hasSub env.url2 (str "accounts.kakao")) = true →
       (username.isEmpty || password.isEmpty) = true →
       (runTistory env cookies blogUrl username password title content).1.success = false ∧
       (runTistory env cookies blogUrl username password title content).1.error =
         some msgSessionExpired ∧
       (runTistory env cookies blogUrl username password title content).2.loginAttempts = 0) := by
  constructor
  · intro env cookies title content creds h1 h2 h3 h4 h5 h6
    simp [runNaver, naverLaunch, naverSession, h1, h2, h3, h4, h5, h6]
  · intro env cookies blogUrl username password title content bn h1 h2 h3 hb h4 h5 h6 h7
    obtain ⟨a1, ha1, hL⟩ := tistoryLaunch_reaches env cookies blogUrl bn h1 h2 h3 hb h4 h5
    unfold runTistory
    rw [hL]
    dsimp only []
    simp [tistorySession, h6, h7]

/-- Witness for C7: concrete expired-session runs on both platforms return
the session-expired error with zero login attempts. -/
theorem claim7_witness :
    ((runNaver c7nEnv (str "NID_AUT=old") (str "t") (str "c") none).1.error =
       some msgSessionExpired ∧
     (runNaver c7nEnv (str "NID_AUT=old") (str "t") (str "c") none).2.loginAttempts = 0) ∧
    ((runTistory c7tEnv (str "TSSESSION=a") (str "https://myblog.tistory.com") [] []
        (str "t") (str "c")).1.error = some msgSessionExpired ∧
     (runTistory c7tEnv (str "TSSESSION=a") (str "https://myblog.tistory.com") [] []
        (str "t") (str "c")).2.loginAttempts = 0) := by
  constructor
  · have h := claim7_expired_no_credentials.1 c7nEnv (str "NID_AUT=old") (str "t") (str "c")
      none rfl rfl rfl rfl (by decide) rfl
    exact ⟨h.2.1, h.2.2⟩
  · have h := claim7_expired_no_credentials.2 c7tEnv (str "TSSESSION=a")
      (str "https://myblog.tistory.com") [] [] (str "t") (str "c") (str "myblog")
      rfl rfl rfl (by decide) rfl rfl (by decide) rfl
    exact ⟨h.2.1, h.2.2⟩

/-- C8: counterexample — a Naver run in which every title selector misses
still attempts submission and reports success. -/
theorem claim8_counterexample :
    c8Env.titleSelHit = false ∧ c8Env.articlePHit = false ∧
    c8Run.2.submitAttempted = true ∧ c8Run.1.success = true := by decide

/-- C8 (corrected): when all title selectors miss, Tistory fails with the
element-not-found error before any submission, while Naver only logs the
miss and still attempts submission. -/
theorem claim8_title_failure :
    (∀ (env : TistoryEnv) (cookies blogUrl username password title content bn : Str),
       env.launchErr = none → env.ctxErr = none → env.addCookiesErr = none →
       tistoryHost blogUrl = some bn → env.goto1Err = none → env.goto2Err = none →
       (hasSub env.url2 (str "auth/login") || hasSub env.url2 (str "kakao") ||
         hasSub env.url2 (str "accounts.kakao")) = false →
       (hasSub env.url2 (str "/manage/newpost") || hasSub env.url2 (str "/manage/post")) = true →
       env.titleS1 = false → env.titleS2 = false → env.titleS3 = false →
       (runTistory env cookies blogUrl username password title content).1.success = false ∧
       (runTistory env cookies blogUrl username password title content).1.error =
         some msgNoTitle ∧
       (runTistory env cookies blogUrl username password title content).2.submitAttempted =
         false) ∧
    (∀ (env : NaverEnv) (cookies title content : Str) (creds : Option (Str × Str)),
       env.launchErr = none → env.ctxErr = none → env.addCookiesErr = none →
       env.goto1Err = none →
       (hasSub env.url1 (str "nidlogin") || hasSub env.url1 (str "login")) = false →
       env.iframeWaitErr = none → env.iframeFound = true → env.frameOk = true →
       env.typingErr = none → env.titleSelHit = false → env.articlePHit = false →
       (runNaver env cookies title content creds).2.submitAttempted = true) := by
  constructor
  · intro env cookies blogUrl username password title content bn h1 h2 h3 hb h4 h5 hno hman
      ht1 ht2 ht3
    obtain ⟨a1, ha1, hL⟩ := tistoryLaunch_reaches env cookies blogUrl bn h1 h2 h3 hb h4 h5
    unfold runTistory
    rw [hL]
    dsimp only []
    simp [tistorySession, tistoryArrival, tistoryEntryFinish, hno, hman, ht1, ht2, ht3]
  · intro env cookies title content creds h1 h2 h3 h4 h5 h6 h7 h8 h9 ht1 ht2
    simp [runNaver, naverLaunch, naverSession, naverEditor, h1, h2, h3, h4, h5, h6, h7, h8, h9]
    exact (naverSubmitFinish_spec env _).2.2.1

/-- Witness for C8: concrete all-selectors-miss runs, Tistory stopping
before submission and Naver submitting anyway. -/
theorem claim8_witness :
    ((runTistory c8tEnv (str "TSSESSION=a") (str "https://myblog.tistory.com") (str "u")
        (str "p") (str "t") (str "c")).1.error = some msgNoTitle ∧
     (runTistory c8tEnv (str "TSSESSION=a") (str "https://myblog.tistory.com") (str "u")
        (str "p") (str "t") (str "c")).2.submitAttempted = false) ∧
    (runNaver c8Env (str "NID_AUT=x") (str "제목") (str "본문") none).2.submitAttempted = true := by
  constructor
  · have h := claim8_title_failure.1 c8tEnv (str "TSSESSION=a")
      (str "https://myblog.tistory.com") (str "u") (str "p") (str "t") (str "c") (str "myblog")
      rfl rfl rfl (by decide) rfl rfl (by decide) (by decide) rfl rfl rfl
    exact ⟨h.2.1, h.2.2⟩
  · exact claim8_title_failure.2 c8Env (str "NID_AUT=x") (str "제목") (str "본문") none
      rfl rfl rfl rfl (by decide) rfl rfl rfl rfl rfl rfl

/-- C9 (corrected): serializing a well-formed jar in the JSON shape and
parsing it back returns the jar unchanged, while the flat shape preserves
names and values but retargets every cookie to the injection call's domain
and the root path. -/
theorem claim9_roundtrip (l : List Cookie) (d : Str) :
    ((∀ c ∈ l, WfJsonCookie c) → parseCookieString (encodeCookies l) d = l) ∧
    ((∀ c ∈ l, WfFlatCookie c) →
      parseCookieString (cookieJoinFlat l) d =
        l.map (fun c => ⟨c.name, c.value, d, str "/"⟩)) :=
  ⟨parseCookieString_encode l d, parseCookieString_join l d⟩

/-- C9: counterexample — a jar scoped to example.com, serialized flat and
re-parsed for .naver.com, comes back scoped to .naver.com. -/
theorem claim9_counterexample :
    (parseCookieString (cookieJoinFlat c9Jar) (str ".naver.com")).map Cookie.domain =
      [str ".naver.com"] ∧
    c9Jar.map Cookie.domain = [str "example.com"] := by decide

/-- Witness for C9: both round trips evaluated on a concrete one-cookie
jar. -/
theorem claim9_witness :
    parseCookieString (encodeCookies c9Jar) (str ".naver.com") = c9Jar ∧
    parseCookieString (cookieJoinFlat c9Jar) (str ".naver.com") =
      c9Jar.map (fun c => ⟨c.name, c.value, str ".naver.com", str "/"⟩) :=
  ⟨(claim9_roundtrip c9Jar (str ".naver.com")).1 (by decide),
   (claim9_roundtrip c9Jar (str ".naver.com")).2 (by decide)⟩

/-- C10: `saveCookies` leaves the session map untouched and closes nothing
when the capture fails, and on success removes the session from the map and
closes exactly that session. -/
theorem claim10_capture_pending_keeps_session :
    ∀ (m : Sessions) (sid : Str) (env : SaveEnv),
      ((saveCookies m sid env).1.success = false →
        (saveCookies m sid env).2.1 = m ∧ (saveCookies m sid env).2.2 = []) ∧
      ((saveCookies m sid env).1.success = true →
        lookupSession m sid ≠ none ∧
        (saveCookies m sid env).2.1 = removeSession m sid ∧
        (saveCookies m sid env).2.2 = [sid]) :=
  fun m sid env =>
    ⟨fun h => saveCookies_not_success h, fun h => saveCookies_success h⟩

/-- Witness for C10: a pending capture on a concrete one-session map keeps
the map and closes nothing. -/
theorem claim10_witness :
    (saveCookies c10Map (str "s1") c10PendingEnv).1.success = false ∧
    (saveCookies c10Map (str "s1") c10PendingEnv).2.1 = c10Map ∧
    (saveCookies c10Map (str "s1") c10PendingEnv).2.2 = [] := by
  have h := (claim10_capture_pending_keeps_session c10Map (str "s1") c10PendingEnv).1 (by decide)
  exact ⟨by decide, h.1, h.2⟩

end AbkBE
